import Mathlib

/-!
# SoapySDRProbe: the device capability report

A shallow embedding of `apps/SoapySDRProbe.cpp` and the properties of the text
report it builds.

* A `std::stringstream` is the `String` written so far; `ss << x` appends the
  text of `x`, `std::endl` appends a newline.
* `double` is an abstract type `R` with the three things the probe needs of
  it (`DoubleOps`): division, its text under `operator<<`, the literal `1e6`.
* The device is a record of queries in a monad `m`: `Id` for a device whose
  queries all return, `Except ε` for queries that may throw, and `Traced ε`
  for the same with a log of the calls made.
-/

set_option maxRecDepth 100000

namespace SoapySDRProbe

/-! ## Data model -/

/-- The operations on `double` used by the probe. `div` is `/`, `fmt x` is the
text `ss << x` writes for a `double`, `lit1e6` is the literal `1e6`. -/
structure DoubleOps (R : Type) where
  div : R → R → R
  fmt : R → String
  lit1e6 : R

/-- Modelled from the spec: the class `SoapySDR::Range` of `SoapySDR/Types.hpp`,
a header that is not part of the sources: the closed interval of the spec's
glossary, read through `minimum()` and `maximum()`. -/
structure Range (R : Type) where
  minimum : R
  maximum : R

/-- Modelled from the spec: the type `SoapySDR::Kwargs` of `SoapySDR/Types.hpp`,
a header that is not part of the sources: a mapping from string to string, as
the sequence of pairs its iterator yields from `begin()` to `end()`. -/
abbrev Kwargs := List (String × String)

/-- Modelled from the spec: the direction tag `SOAPY_SDR_TX` of
`SoapySDR/Constants.h`, a header that is not part of the sources; the spec
has two distinct tags, RX and TX. -/
def SOAPY_SDR_TX : Int := 0

/-- Modelled from the spec: the direction tag `SOAPY_SDR_RX` of
`SoapySDR/Constants.h`, a header that is not part of the sources; the spec
has two distinct tags, RX and TX. -/
def SOAPY_SDR_RX : Int := 1

/-- Modelled from the spec: the class `SoapySDR::Device` of
`SoapySDR/Device.hpp`, a header that is not part of the sources: the queries
the probe calls, with the result types of the spec's external interfaces, each
in the monad `m`. The C++ overloads with more arguments carry a suffix:
`listSensorsChan` is `listSensors(dir, chan)`, `getGainRangeNamed` is
`getGainRange(dir, chan, name)`, `getFrequencyRangeNamed` is
`getFrequencyRange(dir, chan, name)`. -/
structure Device (m : Type → Type) (R : Type) where
  getDriverKey : m String
  getHardwareKey : m String
  getHardwareInfo : m Kwargs
  getNumChannels : Int → m Nat
  getFullDuplex : Int → Nat → m Bool
  listAntennas : Int → Nat → m (List String)
  hasDCOffsetMode : Int → Nat → m Bool
  hasDCOffset : Int → Nat → m Bool
  hasIQBalance : Int → Nat → m Bool
  listGains : Int → Nat → m (List String)
  getGainRange : Int → Nat → m (Range R)
  getGainRangeNamed : Int → Nat → String → m (Range R)
  listFrequencies : Int → Nat → m (List String)
  getFrequencyRange : Int → Nat → m (List (Range R))
  getFrequencyRangeNamed : Int → Nat → String → m (List (Range R))
  listSampleRates : Int → Nat → m (List R)
  listBandwidths : Int → Nat → m (List R)
  listSensorsChan : Int → Nat → m (List String)
  hasHardwareTime : m Bool
  listClockSources : m (List String)
  listTimeSources : m (List String)
  listSensors : m (List String)
  listGPIOBanks : m (List String)
  listUARTs : m (List String)

/-! ## The formatting helpers -/

/-- The text written by `std::endl`. -/
def endl : String := "\n"

/-- The divider line of a section header. -/
def divider : String := "----------------------------------------------------"

/-- The template `toString(const std::vector<Type> &)`, lines 7-18, at
`Type = std::string`, its only use: the separator is written when the text so
far is not empty. -/
def toStringList (options : List String) : String :=
  if options.isEmpty then ""
  else options.foldl (fun ss x => (if ss ≠ "" then ss ++ ", " else ss) ++ x) ""

/-- The overload `toString(const SoapySDR::Range &)`, lines 20-25. -/
def toStringRange {R : Type} (D : DoubleOps R) (range : Range R) : String :=
  "[" ++ D.fmt range.minimum ++ ", " ++ D.fmt range.maximum ++ "]"

/-- The overload `toString(const SoapySDR::RangeList &, const double)`, lines
27-36. -/
def toStringRangeList {R : Type} (D : DoubleOps R) (range : List (Range R)) (scale : R) :
    String :=
  range.foldl
    (fun ss r =>
      (if ss ≠ "" then ss ++ ", " else ss)
        ++ "[" ++ D.fmt (D.div r.minimum scale) ++ ", " ++ D.fmt (D.div r.maximum scale) ++ "]")
    ""

/-- The overload `toString(const std::vector<double> &, const double)`, lines
38-54. `front()` and `back()` are read only when there are more than three
entries, so both exist. -/
def toStringNums {R : Type} (D : DoubleOps R) (nums : List R) (scale : R) : String :=
  if h : nums.length > 3 then
    "[" ++ D.fmt (D.div (nums.head (List.ne_nil_of_length_pos (by omega))) scale) ++ ", "
      ++ D.fmt (D.div (nums.getLast (List.ne_nil_of_length_pos (by omega))) scale) ++ "]"
  else
    "[" ++ nums.foldl (fun ss x => (if ss ≠ "" then ss ++ ", " else ss) ++ D.fmt (D.div x scale)) ""
      ++ "]"

/-! ## The report -/

/-- The function `probeChannel`, lines 56-110. -/
def probeChannel {m : Type → Type} [Monad m] {R : Type} (D : DoubleOps R)
    (device : Device m R) (dir : Int) (chan : Nat) : m String := do
  let ss := ""
  let dirName := if dir = SOAPY_SDR_TX then "TX" else "RX"
  let ss := ss ++ endl
  let ss := ss ++ divider ++ endl
  let ss := ss ++ "-- " ++ dirName ++ " Channel " ++ toString chan ++ endl
  let ss := ss ++ divider ++ endl
  let fullDuplex ← device.getFullDuplex dir chan
  let ss := ss ++ "  Full-duplex: " ++ (if fullDuplex then "YES" else "NO") ++ endl
  -- antennas
  let antennas := toStringList (← device.listAntennas dir chan)
  let ss := if antennas ≠ "" then ss ++ "  Antennas: " ++ antennas ++ endl else ss
  -- corrections
  let correctionsList : List String := []
  let correctionsList :=
    if (← device.hasDCOffsetMode dir chan) then correctionsList ++ ["DC removal"]
    else correctionsList
  let correctionsList :=
    if (← device.hasDCOffset dir chan) then correctionsList ++ ["DC offset"]
    else correctionsList
  let correctionsList :=
    if (← device.hasIQBalance dir chan) then correctionsList ++ ["IQ balance"]
    else correctionsList
  let corrections := toStringList correctionsList
  let ss := if corrections ≠ "" then ss ++ "  Corrections: " ++ corrections ++ endl else ss
  -- gains
  let ss := ss ++ "  Full gain range: " ++ toStringRange D (← device.getGainRange dir chan)
    ++ " dB" ++ endl
  let gainsList ← device.listGains dir chan
  let ss ← gainsList.foldlM
    (fun ss name => do
      let r ← device.getGainRangeNamed dir chan name
      pure (ss ++ "    " ++ name ++ " gain range: " ++ toStringRange D r ++ " dB" ++ endl))
    ss
  -- frequencies
  let ss := ss ++ "  Full freq range: "
    ++ toStringRangeList D (← device.getFrequencyRange dir chan) D.lit1e6 ++ " MHz" ++ endl
  let freqsList ← device.listFrequencies dir chan
  let ss ← freqsList.foldlM
    (fun ss name => do
      let r ← device.getFrequencyRangeNamed dir chan name
      pure (ss ++ "    " ++ name ++ " freq range: " ++ toStringRangeList D r D.lit1e6
        ++ " MHz" ++ endl))
    ss
  -- rates
  let ss := ss ++ "  Sample rates: "
    ++ toStringNums D (← device.listSampleRates dir chan) D.lit1e6 ++ " MHz" ++ endl
  -- bandwidths
  let bws ← device.listBandwidths dir chan
  let ss := if ¬ bws.isEmpty then
      ss ++ "  Filter bandwidths: " ++ toStringNums D bws D.lit1e6 ++ " MHz" ++ endl
    else ss
  -- sensors
  let sensors := toStringList (← device.listSensorsChan dir chan)
  let ss := if sensors ≠ "" then ss ++ "  Sensors: " ++ sensors ++ endl else ss
  return ss

/-- The function `SoapySDRDeviceProbe`, lines 112-174. -/
def SoapySDRDeviceProbe {m : Type → Type} [Monad m] {R : Type} (D : DoubleOps R)
    (device : Device m R) : m String := do
  -- Identification info
  let ss := ""
  let ss := ss ++ endl
  let ss := ss ++ divider ++ endl
  let ss := ss ++ "-- Device identification" ++ endl
  let ss := ss ++ divider ++ endl
  let ss := ss ++ "  driver=" ++ (← device.getDriverKey) ++ endl
  let ss := ss ++ "  hardware=" ++ (← device.getHardwareKey) ++ endl
  let info ← device.getHardwareInfo
  let ss := info.foldl (fun ss it => ss ++ "  " ++ it.1 ++ "=" ++ it.2 ++ endl) ss
  -- Available peripherals
  let ss := ss ++ endl
  let ss := ss ++ divider ++ endl
  let ss := ss ++ "-- Peripheral summary" ++ endl
  let ss := ss ++ divider ++ endl
  let numRxChans ← device.getNumChannels SOAPY_SDR_RX
  let numTxChans ← device.getNumChannels SOAPY_SDR_TX
  let ss := ss ++ "  Channels: " ++ toString numRxChans ++ " Rx, " ++ toString numTxChans
    ++ " Tx" ++ endl
  let ss := ss ++ "  Timestamps: " ++ (if (← device.hasHardwareTime) then "YES" else "NO")
    ++ endl
  let clockSources := toStringList (← device.listClockSources)
  let ss := if clockSources ≠ "" then ss ++ "  Clock sources: " ++ clockSources ++ endl else ss
  let timeSources := toStringList (← device.listTimeSources)
  let ss := if timeSources ≠ "" then ss ++ "  Time sources: " ++ timeSources ++ endl else ss
  let sensors := toStringList (← device.listSensors)
  let ss := if sensors ≠ "" then ss ++ "  Sensors: " ++ sensors ++ endl else ss
  let gpios := toStringList (← device.listGPIOBanks)
  let ss := if gpios ≠ "" then ss ++ "  GPIOs: " ++ gpios ++ endl else ss
  let uarts := toStringList (← device.listUARTs)
  let ss := if uarts ≠ "" then ss ++ "  UARTs: " ++ uarts ++ endl else ss
  -- Per-channel info
  let ss ← (List.range numRxChans).foldlM
    (fun ss chan => do
      let s ← probeChannel D device SOAPY_SDR_RX chan
      pure (ss ++ s))
    ss
  let ss ← (List.range numTxChans).foldlM
    (fun ss chan => do
      let s ← probeChannel D device SOAPY_SDR_TX chan
      pure (ss ++ s))
    ss
  return ss


/-! ## Sample devices, lines and traces -/

/-- An instance of `DoubleOps` on the integers, for evaluating the probe at
whole values with whole quotients, where integer division and decimal text
are what `double` arithmetic and `operator<<` give for numbers of at most six
digits. -/
def wholeOps : DoubleOps Int where
  div := fun a b => a / b
  fmt := fun x => toString x
  lit1e6 := 1000000

/-- A device on whole numbers with one RX channel, no TX channel and nothing
optional: every list is empty and every flag is off. -/
def bareDevice : Device Id Int where
  getDriverKey := pure "null"
  getHardwareKey := pure "null"
  getHardwareInfo := pure []
  getNumChannels := fun dir => pure (if dir = SOAPY_SDR_RX then 1 else 0)
  getFullDuplex := fun _ _ => pure false
  listAntennas := fun _ _ => pure []
  hasDCOffsetMode := fun _ _ => pure false
  hasDCOffset := fun _ _ => pure false
  hasIQBalance := fun _ _ => pure false
  listGains := fun _ _ => pure []
  getGainRange := fun _ _ => pure ⟨0, 0⟩
  getGainRangeNamed := fun _ _ _ => pure ⟨0, 0⟩
  listFrequencies := fun _ _ => pure []
  getFrequencyRange := fun _ _ => pure []
  getFrequencyRangeNamed := fun _ _ _ => pure []
  listSampleRates := fun _ _ => pure []
  listBandwidths := fun _ _ => pure []
  listSensorsChan := fun _ _ => pure []
  hasHardwareTime := pure false
  listClockSources := pure []
  listTimeSources := pure []
  listSensors := pure []
  listGPIOBanks := pure []
  listUARTs := pure []

/-- A device on whole numbers with one RX and one TX channel that reports
something for every query. -/
def sampleDevice : Device Id Int where
  getDriverKey := pure "demo"
  getHardwareKey := pure "board"
  getHardwareInfo := pure [("origin", "lab"), ("serial", "42")]
  getNumChannels := fun _ => pure 1
  getFullDuplex := fun _ _ => pure true
  listAntennas := fun _ _ => pure ["A", "B"]
  hasDCOffsetMode := fun _ _ => pure true
  hasDCOffset := fun _ _ => pure false
  hasIQBalance := fun _ _ => pure true
  listGains := fun _ _ => pure ["LNA", "VGA"]
  getGainRange := fun _ _ => pure ⟨0, 60⟩
  getGainRangeNamed := fun _ _ name => pure (if name = "LNA" then ⟨0, 40⟩ else ⟨0, 20⟩)
  listFrequencies := fun _ _ => pure ["RF"]
  getFrequencyRange := fun _ _ => pure [⟨100000000, 200000000⟩, ⟨400000000, 800000000⟩]
  getFrequencyRangeNamed := fun _ _ _ => pure [⟨100000000, 800000000⟩]
  listSampleRates := fun _ _ => pure [1000000, 2000000, 4000000, 8000000]
  listBandwidths := fun _ _ => pure [5000000]
  listSensorsChan := fun _ _ => pure ["temp"]
  hasHardwareTime := pure true
  listClockSources := pure ["internal", "external"]
  listTimeSources := pure ["pps"]
  listSensors := pure ["", ""]
  listGPIOBanks := pure ["MAIN"]
  listUARTs := pure []

/-- The text of a sequence of lines, each closed by `std::endl`. -/
def unlines (ls : List String) : String := String.join (ls.map (fun l => l ++ endl))

/-- A line carries a label when it starts with the label's characters. -/
def hasLabel (label line : String) : Prop := label.data <+: line.data

instance (label line : String) : Decidable (hasLabel label line) := by
  unfold hasLabel; infer_instance

/-- A line written only when its text is not empty: the guarded statements
`if (not text.empty()) ss << label << text << std::endl`. -/
def labelled (label text : String) : List String :=
  if text ≠ "" then [label ++ text] else []

/-- The labelled line of a list of names as the code guards it: left out when
every name is empty, whatever the length of the list. -/
def namesLine (label : String) (names : List String) : List String :=
  if ∀ s ∈ names, s = "" then [] else [label ++ toStringList names]

/-- The token written for a boolean flag. -/
def yesNo (b : Bool) : String := if b then "YES" else "NO"

/-- The corrections a channel reports, in the order the probe asks for them. -/
def correctionNames (dcMode dc iq : Bool) : List String :=
  (if dcMode then ["DC removal"] else []) ++ (if dc then ["DC offset"] else [])
    ++ (if iq then ["IQ balance"] else [])

/-- The lines of one channel section, as the spec lists them. -/
def channelLines {R : Type} (D : DoubleOps R) (dev : Device Id R) (dir : Int) (chan : Nat) :
    List String :=
  ["", divider,
    "-- " ++ (if dir = SOAPY_SDR_TX then "TX" else "RX") ++ " Channel " ++ toString chan,
    divider,
    "  Full-duplex: " ++ yesNo (Id.run (dev.getFullDuplex dir chan))]
  ++ labelled "  Antennas: " (toStringList (Id.run (dev.listAntennas dir chan)))
  ++ labelled "  Corrections: "
      (", ".intercalate (correctionNames (Id.run (dev.hasDCOffsetMode dir chan))
        (Id.run (dev.hasDCOffset dir chan)) (Id.run (dev.hasIQBalance dir chan))))
  ++ ["  Full gain range: " ++ toStringRange D (Id.run (dev.getGainRange dir chan)) ++ " dB"]
  ++ (Id.run (dev.listGains dir chan)).map
      (fun name => "    " ++ name ++ " gain range: "
        ++ toStringRange D (Id.run (dev.getGainRangeNamed dir chan name)) ++ " dB")
  ++ ["  Full freq range: "
      ++ toStringRangeList D (Id.run (dev.getFrequencyRange dir chan)) D.lit1e6 ++ " MHz"]
  ++ (Id.run (dev.listFrequencies dir chan)).map
      (fun name => "    " ++ name ++ " freq range: "
        ++ toStringRangeList D (Id.run (dev.getFrequencyRangeNamed dir chan name)) D.lit1e6
        ++ " MHz")
  ++ ["  Sample rates: "
      ++ toStringNums D (Id.run (dev.listSampleRates dir chan)) D.lit1e6 ++ " MHz"]
  ++ (if (Id.run (dev.listBandwidths dir chan)).isEmpty then []
      else ["  Filter bandwidths: "
        ++ toStringNums D (Id.run (dev.listBandwidths dir chan)) D.lit1e6 ++ " MHz"])
  ++ labelled "  Sensors: " (toStringList (Id.run (dev.listSensorsChan dir chan)))

/-- The lines of the identification section, as the spec lists them. -/
def identificationLines {R : Type} (dev : Device Id R) : List String :=
  ["", divider, "-- Device identification", divider,
    "  driver=" ++ Id.run dev.getDriverKey,
    "  hardware=" ++ Id.run dev.getHardwareKey]
  ++ (Id.run dev.getHardwareInfo).map (fun it => "  " ++ it.1 ++ "=" ++ it.2)

/-- The lines of the peripheral summary, as the spec lists them. -/
def peripheralLines {R : Type} (dev : Device Id R) : List String :=
  ["", divider, "-- Peripheral summary", divider,
    "  Channels: " ++ toString (Id.run (dev.getNumChannels SOAPY_SDR_RX)) ++ " Rx, "
      ++ toString (Id.run (dev.getNumChannels SOAPY_SDR_TX)) ++ " Tx",
    "  Timestamps: " ++ yesNo (Id.run dev.hasHardwareTime)]
  ++ labelled "  Clock sources: " (toStringList (Id.run dev.listClockSources))
  ++ labelled "  Time sources: " (toStringList (Id.run dev.listTimeSources))
  ++ labelled "  Sensors: " (toStringList (Id.run dev.listSensors))
  ++ labelled "  GPIOs: " (toStringList (Id.run dev.listGPIOBanks))
  ++ labelled "  UARTs: " (toStringList (Id.run dev.listUARTs))

/-- A section title is a line that starts with two dashes and a blank; the
divider has a third dash there. -/
def isTitle (l : String) : Bool := decide (hasLabel "-- " l)

/-- The section titles among some lines, in order. -/
def titles (ls : List String) : List String := ls.filter isTitle

/-- The lines of the whole report, as the spec orders them: identification,
peripheral summary, the RX channels by increasing index, the TX channels by
increasing index. -/
def reportLines {R : Type} (D : DoubleOps R) (dev : Device Id R) : List String :=
  identificationLines dev ++ peripheralLines dev
    ++ ((List.range (Id.run (dev.getNumChannels SOAPY_SDR_RX))).map
        (fun i => channelLines D dev SOAPY_SDR_RX i)).flatten
    ++ ((List.range (Id.run (dev.getNumChannels SOAPY_SDR_TX))).map
        (fun j => channelLines D dev SOAPY_SDR_TX j)).flatten

/-- The lines of a channel section before its corrections line. -/
def channelOpening {R : Type} (dev : Device Id R) (dir : Int) (chan : Nat) : List String :=
  ["", divider,
    "-- " ++ (if dir = SOAPY_SDR_TX then "TX" else "RX") ++ " Channel " ++ toString chan,
    divider,
    "  Full-duplex: " ++ yesNo (Id.run (dev.getFullDuplex dir chan))]
  ++ labelled "  Antennas: " (toStringList (Id.run (dev.listAntennas dir chan)))

/-- The lines of a channel section after its frequency lines. -/
def channelClosing {R : Type} (D : DoubleOps R) (dev : Device Id R) (dir : Int) (chan : Nat) :
    List String :=
  ["  Sample rates: "
      ++ toStringNums D (Id.run (dev.listSampleRates dir chan)) D.lit1e6 ++ " MHz"]
  ++ (if (Id.run (dev.listBandwidths dir chan)).isEmpty then []
      else ["  Filter bandwidths: "
        ++ toStringNums D (Id.run (dev.listBandwidths dir chan)) D.lit1e6 ++ " MHz"])
  ++ labelled "  Sensors: " (toStringList (Id.run (dev.listSensorsChan dir chan)))

/-- The gain and frequency lines of a channel section. -/
def channelRanges {R : Type} (D : DoubleOps R) (dev : Device Id R) (dir : Int) (chan : Nat) :
    List String :=
  ["  Full gain range: " ++ toStringRange D (Id.run (dev.getGainRange dir chan)) ++ " dB"]
  ++ (Id.run (dev.listGains dir chan)).map
      (fun name => "    " ++ name ++ " gain range: "
        ++ toStringRange D (Id.run (dev.getGainRangeNamed dir chan name)) ++ " dB")
  ++ ["  Full freq range: "
      ++ toStringRangeList D (Id.run (dev.getFrequencyRange dir chan)) D.lit1e6 ++ " MHz"]
  ++ (Id.run (dev.listFrequencies dir chan)).map
      (fun name => "    " ++ name ++ " freq range: "
        ++ toStringRangeList D (Id.run (dev.getFrequencyRangeNamed dir chan name)) D.lit1e6
        ++ " MHz")

/-- The title block and the full-duplex line of a channel section. -/
def channelHeader {R : Type} (dev : Device Id R) (dir : Int) (chan : Nat) : List String :=
  ["", divider,
    "-- " ++ (if dir = SOAPY_SDR_TX then "TX" else "RX") ++ " Channel " ++ toString chan,
    divider,
    "  Full-duplex: " ++ yesNo (Id.run (dev.getFullDuplex dir chan))]

/-- The corrections line of a channel section, written when its text is not
empty. -/
def channelCorrections {R : Type} (dev : Device Id R) (dir : Int) (chan : Nat) : List String :=
  labelled "  Corrections: "
    (", ".intercalate (correctionNames (Id.run (dev.hasDCOffsetMode dir chan))
      (Id.run (dev.hasDCOffset dir chan)) (Id.run (dev.hasIQBalance dir chan))))

/-- The sample rate line of a channel section and its bandwidth line, the
latter written when the bandwidth list is not empty. -/
def channelRates {R : Type} (D : DoubleOps R) (dev : Device Id R) (dir : Int) (chan : Nat) :
    List String :=
  ["  Sample rates: "
      ++ toStringNums D (Id.run (dev.listSampleRates dir chan)) D.lit1e6 ++ " MHz"]
  ++ (if (Id.run (dev.listBandwidths dir chan)).isEmpty then []
      else ["  Filter bandwidths: "
        ++ toStringNums D (Id.run (dev.listBandwidths dir chan)) D.lit1e6 ++ " MHz"])

/-- A call of a device query, with its arguments. -/
inductive Query where
  | getDriverKey
  | getHardwareKey
  | getHardwareInfo
  | getNumChannels (dir : Int)
  | getFullDuplex (dir : Int) (chan : Nat)
  | listAntennas (dir : Int) (chan : Nat)
  | hasDCOffsetMode (dir : Int) (chan : Nat)
  | hasDCOffset (dir : Int) (chan : Nat)
  | hasIQBalance (dir : Int) (chan : Nat)
  | listGains (dir : Int) (chan : Nat)
  | getGainRange (dir : Int) (chan : Nat)
  | getGainRangeNamed (dir : Int) (chan : Nat) (name : String)
  | listFrequencies (dir : Int) (chan : Nat)
  | getFrequencyRange (dir : Int) (chan : Nat)
  | getFrequencyRangeNamed (dir : Int) (chan : Nat) (name : String)
  | listSampleRates (dir : Int) (chan : Nat)
  | listBandwidths (dir : Int) (chan : Nat)
  | listSensorsChan (dir : Int) (chan : Nat)
  | hasHardwareTime
  | listClockSources
  | listTimeSources
  | listSensors
  | listGPIOBanks
  | listUARTs
  deriving DecidableEq

/-- A computation that may throw and that keeps the log of the queries called
so far, the log surviving a throw. -/
def Traced (ε : Type) (α : Type) : Type := List Query → Except ε α × List Query

instance (ε : Type) : Monad (Traced ε) where
  pure a := fun log => (Except.ok a, log)
  bind x f := fun log =>
    match x log with
    | (Except.ok a, log1) => f a log1
    | (Except.error e, log1) => (Except.error e, log1)

/-- The call of query `q` with answer `x`: the call is logged, then `x` is
returned or thrown. -/
def call {ε α : Type} (q : Query) (x : Except ε α) : Traced ε α :=
  fun log => (x, log ++ [q])

/-- The error of an answer, if it is one. -/
def thrown {ε α : Type} (x : Except ε α) : Option ε :=
  match x with
  | Except.ok _ => none
  | Except.error e => some e

/-- The error with which a device answers a call, if it throws. -/
def outcome {ε R : Type} (dev : Device (Except ε) R) : Query → Option ε
  | .getDriverKey => thrown dev.getDriverKey
  | .getHardwareKey => thrown dev.getHardwareKey
  | .getHardwareInfo => thrown dev.getHardwareInfo
  | .getNumChannels dir => thrown (dev.getNumChannels dir)
  | .getFullDuplex dir chan => thrown (dev.getFullDuplex dir chan)
  | .listAntennas dir chan => thrown (dev.listAntennas dir chan)
  | .hasDCOffsetMode dir chan => thrown (dev.hasDCOffsetMode dir chan)
  | .hasDCOffset dir chan => thrown (dev.hasDCOffset dir chan)
  | .hasIQBalance dir chan => thrown (dev.hasIQBalance dir chan)
  | .listGains dir chan => thrown (dev.listGains dir chan)
  | .getGainRange dir chan => thrown (dev.getGainRange dir chan)
  | .getGainRangeNamed dir chan name => thrown (dev.getGainRangeNamed dir chan name)
  | .listFrequencies dir chan => thrown (dev.listFrequencies dir chan)
  | .getFrequencyRange dir chan => thrown (dev.getFrequencyRange dir chan)
  | .getFrequencyRangeNamed dir chan name => thrown (dev.getFrequencyRangeNamed dir chan name)
  | .listSampleRates dir chan => thrown (dev.listSampleRates dir chan)
  | .listBandwidths dir chan => thrown (dev.listBandwidths dir chan)
  | .listSensorsChan dir chan => thrown (dev.listSensorsChan dir chan)
  | .hasHardwareTime => thrown dev.hasHardwareTime
  | .listClockSources => thrown dev.listClockSources
  | .listTimeSources => thrown dev.listTimeSources
  | .listSensors => thrown dev.listSensors
  | .listGPIOBanks => thrown dev.listGPIOBanks
  | .listUARTs => thrown dev.listUARTs

/-- The device `dev` with every call logged. -/
def traced {ε R : Type} (dev : Device (Except ε) R) : Device (Traced ε) R where
  getDriverKey := call .getDriverKey dev.getDriverKey
  getHardwareKey := call .getHardwareKey dev.getHardwareKey
  getHardwareInfo := call .getHardwareInfo dev.getHardwareInfo
  getNumChannels := fun dir => call (.getNumChannels dir) (dev.getNumChannels dir)
  getFullDuplex := fun dir chan => call (.getFullDuplex dir chan) (dev.getFullDuplex dir chan)
  listAntennas := fun dir chan => call (.listAntennas dir chan) (dev.listAntennas dir chan)
  hasDCOffsetMode := fun dir chan =>
    call (.hasDCOffsetMode dir chan) (dev.hasDCOffsetMode dir chan)
  hasDCOffset := fun dir chan => call (.hasDCOffset dir chan) (dev.hasDCOffset dir chan)
  hasIQBalance := fun dir chan => call (.hasIQBalance dir chan) (dev.hasIQBalance dir chan)
  listGains := fun dir chan => call (.listGains dir chan) (dev.listGains dir chan)
  getGainRange := fun dir chan => call (.getGainRange dir chan) (dev.getGainRange dir chan)
  getGainRangeNamed := fun dir chan name =>
    call (.getGainRangeNamed dir chan name) (dev.getGainRangeNamed dir chan name)
  listFrequencies := fun dir chan =>
    call (.listFrequencies dir chan) (dev.listFrequencies dir chan)
  getFrequencyRange := fun dir chan =>
    call (.getFrequencyRange dir chan) (dev.getFrequencyRange dir chan)
  getFrequencyRangeNamed := fun dir chan name =>
    call (.getFrequencyRangeNamed dir chan name) (dev.getFrequencyRangeNamed dir chan name)
  listSampleRates := fun dir chan =>
    call (.listSampleRates dir chan) (dev.listSampleRates dir chan)
  listBandwidths := fun dir chan => call (.listBandwidths dir chan) (dev.listBandwidths dir chan)
  listSensorsChan := fun dir chan =>
    call (.listSensorsChan dir chan) (dev.listSensorsChan dir chan)
  hasHardwareTime := call .hasHardwareTime dev.hasHardwareTime
  listClockSources := call .listClockSources dev.listClockSources
  listTimeSources := call .listTimeSources dev.listTimeSources
  listSensors := call .listSensors dev.listSensors
  listGPIOBanks := call .listGPIOBanks dev.listGPIOBanks
  listUARTs := call .listUARTs dev.listUARTs

/-- What a logged run owes the plain run `y` of the same program: the same
result; on a return, calls that all succeeded; on a throw of `e`, calls that
succeeded followed by one last call that threw `e`. -/
def Sound {ε R α : Type} (dev : Device (Except ε) R) (x : Traced ε α) (y : Except ε α) : Prop :=
  ∀ log, (x log).1 = y ∧
    match y with
    | Except.ok _ => ∃ more, (x log).2 = log ++ more ∧ ∀ q ∈ more, outcome dev q = none
    | Except.error e => ∃ more q, (x log).2 = log ++ (more ++ [q])
        ∧ (∀ q' ∈ more, outcome dev q' = none) ∧ outcome dev q = some e

/-- The device `dev`, whose queries all return, as a device whose queries may
throw. -/
def okDevice {ε R : Type} (dev : Device Id R) : Device (Except ε) R where
  getDriverKey := Except.ok (Id.run dev.getDriverKey)
  getHardwareKey := Except.ok (Id.run dev.getHardwareKey)
  getHardwareInfo := Except.ok (Id.run dev.getHardwareInfo)
  getNumChannels := fun dir => Except.ok (Id.run (dev.getNumChannels dir))
  getFullDuplex := fun dir chan => Except.ok (Id.run (dev.getFullDuplex dir chan))
  listAntennas := fun dir chan => Except.ok (Id.run (dev.listAntennas dir chan))
  hasDCOffsetMode := fun dir chan => Except.ok (Id.run (dev.hasDCOffsetMode dir chan))
  hasDCOffset := fun dir chan => Except.ok (Id.run (dev.hasDCOffset dir chan))
  hasIQBalance := fun dir chan => Except.ok (Id.run (dev.hasIQBalance dir chan))
  listGains := fun dir chan => Except.ok (Id.run (dev.listGains dir chan))
  getGainRange := fun dir chan => Except.ok (Id.run (dev.getGainRange dir chan))
  getGainRangeNamed := fun dir chan name =>
    Except.ok (Id.run (dev.getGainRangeNamed dir chan name))
  listFrequencies := fun dir chan => Except.ok (Id.run (dev.listFrequencies dir chan))
  getFrequencyRange := fun dir chan => Except.ok (Id.run (dev.getFrequencyRange dir chan))
  getFrequencyRangeNamed := fun dir chan name =>
    Except.ok (Id.run (dev.getFrequencyRangeNamed dir chan name))
  listSampleRates := fun dir chan => Except.ok (Id.run (dev.listSampleRates dir chan))
  listBandwidths := fun dir chan => Except.ok (Id.run (dev.listBandwidths dir chan))
  listSensorsChan := fun dir chan => Except.ok (Id.run (dev.listSensorsChan dir chan))
  hasHardwareTime := Except.ok (Id.run dev.hasHardwareTime)
  listClockSources := Except.ok (Id.run dev.listClockSources)
  listTimeSources := Except.ok (Id.run dev.listTimeSources)
  listSensors := Except.ok (Id.run dev.listSensors)
  listGPIOBanks := Except.ok (Id.run dev.listGPIOBanks)
  listUARTs := Except.ok (Id.run dev.listUARTs)

/-- The run `x` returns what the run `y` without throws gives. -/
def Returns {ε α : Type} (x : Except ε α) (y : Id α) : Prop := x = Except.ok (Id.run y)

/-- A device that throws `unsupported` when asked for the antennas of a
channel and `unavailable` when asked for its sensors, and answers every other
query like the sample device. -/
def failingDevice : Device (Except String) Int :=
  { (okDevice sampleDevice : Device (Except String) Int) with
    listAntennas := fun _ _ => Except.error "unsupported"
    listSensorsChan := fun _ _ => Except.error "unavailable" }

/-! ## Theorems -/

theorem append_eq_empty_iff (s t : String) : s ++ t = "" ↔ s = "" ∧ t = "" := by
  simp [String.ext_iff]

theorem join_cons (a : String) (l : List String) :
    String.join (a :: l) = a ++ String.join l := by
  apply String.ext
  simp [String.join_eq]

theorem join_nil : String.join [] = "" := rfl

theorem join_append (l₁ l₂ : List String) :
    String.join (l₁ ++ l₂) = String.join l₁ ++ String.join l₂ := by
  apply String.ext
  simp [String.join_eq]

theorem intercalate_go_eq (sep : String) (l : List String) (acc : String) :
    String.intercalate.go acc sep l = acc ++ String.join (l.map (fun x => sep ++ x)) := by
  induction l generalizing acc with
  | nil => simp [String.intercalate.go, join_nil]
  | cons x xs ih =>
    simp [String.intercalate.go, ih, join_cons, String.append_assoc]

theorem intercalate_cons (sep x : String) (xs : List String) :
    sep.intercalate (x :: xs) = x ++ String.join (xs.map (fun y => sep ++ y)) := by
  simp [String.intercalate, intercalate_go_eq]

/-- The separator loop shared by the three list overloads, started from a text
that is not empty: every further element is written after a separator. -/
theorem sepLoop_of_ne (f : α → String) (l : List α) (acc : String) (h : acc ≠ "") :
    l.foldl (fun ss x => (if ss ≠ "" then ss ++ ", " else ss) ++ f x) acc
      = acc ++ String.join (l.map (fun x => ", " ++ f x)) := by
  induction l generalizing acc with
  | nil => simp [join_nil]
  | cons x xs ih =>
    have h2 : acc ++ ", " ++ f x ≠ "" := by
      simp [append_eq_empty_iff, h]
    simp only [List.foldl_cons, h, ne_eq, not_false_eq_true, if_true, List.map_cons, join_cons]
    rw [ih _ h2]
    simp [String.append_assoc]

/-- The separator loop started from the empty text: elements that write nothing
leave the text empty, and the first one that writes something gets no
separator. -/
theorem sepLoop_empty (f : α → String) (l : List α) :
    l.foldl (fun ss x => (if ss ≠ "" then ss ++ ", " else ss) ++ f x) ""
      = ", ".intercalate ((l.map f).dropWhile (fun s => s == "")) := by
  induction l with
  | nil => rfl
  | cons x xs ih =>
    by_cases hx : f x = ""
    · simp only [List.foldl_cons, List.map_cons, List.dropWhile_cons]
      simp only [ne_eq, not_true_eq_false, if_false, String.empty_append, beq_iff_eq, hx,
        if_true]
      exact ih
    · simp only [List.foldl_cons, List.map_cons, List.dropWhile_cons]
      simp only [ne_eq, not_true_eq_false, if_false, String.empty_append, beq_iff_eq, hx]
      rw [sepLoop_of_ne f xs (f x) hx, intercalate_cons, List.map_map]
      rfl

theorem dropWhile_empty_of_all_ne (l : List String) (h : ∀ s ∈ l, s ≠ "") :
    l.dropWhile (fun s => s == "") = l := by
  cases l with
  | nil => rfl
  | cons x xs => simp [List.dropWhile_cons, h x (by simp)]

theorem toStringList_eq (options : List String) :
    toStringList options = ", ".intercalate (options.dropWhile (fun s => s == "")) := by
  unfold toStringList
  cases options with
  | nil => rfl
  | cons x xs =>
    have := sepLoop_empty (fun s : String => s) (x :: xs)
    simpa using this

theorem dropWhile_empty_eq_nil_iff (l : List String) :
    l.dropWhile (fun s => s == "") = [] ↔ ∀ s ∈ l, s = "" := by
  induction l with
  | nil => simp
  | cons x xs ih =>
    by_cases hx : x = ""
    · simp [List.dropWhile_cons, hx, ih]
    · simp [List.dropWhile_cons, hx]

theorem head_dropWhile_ne (l : List String) (h : l.dropWhile (fun s => s == "") ≠ []) :
    (l.dropWhile (fun s => s == "")).head h ≠ "" := by
  have := List.head_dropWhile_not (fun s : String => s == "") l h
  simpa using this

theorem toStringList_eq_empty_iff (options : List String) :
    toStringList options = "" ↔ ∀ s ∈ options, s = "" := by
  rw [toStringList_eq, ← dropWhile_empty_eq_nil_iff]
  generalize hd : options.dropWhile (fun s => s == "") = d
  cases d with
  | nil => simp [String.intercalate]
  | cons x xs =>
    have hx : x ≠ "" := by
      have := head_dropWhile_ne options (by rw [hd]; simp)
      simpa [hd] using this
    simp [intercalate_cons, append_eq_empty_iff, hx]

theorem unlines_nil : unlines [] = "" := rfl

theorem unlines_cons (a : String) (l : List String) :
    unlines (a :: l) = a ++ endl ++ unlines l := by
  simp [unlines, join_cons]

theorem unlines_append (l₁ l₂ : List String) :
    unlines (l₁ ++ l₂) = unlines l₁ ++ unlines l₂ := by
  simp [unlines, join_append]

theorem unlines_labelled (label text : String) :
    unlines (labelled label text) = if text ≠ "" then label ++ text ++ endl else "" := by
  unfold labelled
  split <;> simp [unlines_cons, unlines_nil]

theorem foldlM_id_append (g : α → String) (l : List α) (init : String) :
    Id.run (l.foldlM (fun ss a => (pure (ss ++ g a) : Id String)) init)
      = init ++ String.join (l.map g) := by
  induction l generalizing init with
  | nil => simp [join_nil, Id.run]
  | cons x xs ih =>
    simp only [List.foldlM_cons, List.map_cons, join_cons]
    have := ih (init ++ g x)
    simp [String.append_assoc] at this ⊢
    exact this

theorem foldlM_id_of (f : String → α → Id String) (g : α → String)
    (hf : ∀ ss a, f ss a = ss ++ g a) (l : List α) (init : String) :
    l.foldlM f init = init ++ String.join (l.map g) := by
  have h : f = fun ss a => pure (ss ++ g a) := by
    funext ss a; exact hf ss a
  subst h
  exact foldlM_id_append g l init

theorem ite_append3 (c : Prop) [Decidable c] (ss a b d : String) :
    (if c then ss ++ a ++ b ++ d else ss) = ss ++ (if c then a ++ b ++ d else "") := by
  split <;> simp [String.append_assoc]

theorem ite_append4 (c : Prop) [Decidable c] (ss a b d e : String) :
    (if c then ss ++ a ++ b ++ d ++ e else ss) = ss ++ (if c then a ++ b ++ d ++ e else "") := by
  split <;> simp [String.append_assoc]

theorem unlines_map (g : α → String) (l : List α) :
    unlines (l.map g) = String.join (l.map (fun x => g x ++ endl)) := by
  simp [unlines, List.map_map, Function.comp_def]

theorem unlines_ite_nil (c : Prop) [Decidable c] (a : String) :
    unlines (if c then [] else [a]) = if ¬ c then a ++ endl else "" := by
  split <;> simp [unlines_cons, unlines_nil]

theorem toStringList_corrections (a b c : Bool) :
    toStringList
      (if c = true then
        (if b = true then (if a = true then [] ++ ["DC removal"] else []) ++ ["DC offset"]
          else if a = true then [] ++ ["DC removal"] else []) ++ ["IQ balance"]
      else
        if b = true then (if a = true then [] ++ ["DC removal"] else []) ++ ["DC offset"]
        else if a = true then [] ++ ["DC removal"] else [])
      = ", ".intercalate (correctionNames a b c) := by
  cases a <;> cases b <;> cases c <;> decide

theorem probeChannel_eq {R : Type} (D : DoubleOps R) (dev : Device Id R) (dir : Int) (chan : Nat) :
    Id.run (probeChannel D dev dir chan) = unlines (channelLines D dev dir chan) := by
  unfold probeChannel channelLines
  simp only [bind, pure, Id.run, ite_append3, ite_append4]
  rw [foldlM_id_of _ (fun name => "    " ++ name ++ " freq range: "
        ++ toStringRangeList D (dev.getFrequencyRangeNamed dir chan name) D.lit1e6
        ++ " MHz" ++ endl)
      (by intro ss a; simp [String.append_assoc])]
  rw [foldlM_id_of _ (fun name => "    " ++ name ++ " gain range: "
        ++ toStringRange D (dev.getGainRangeNamed dir chan name) ++ " dB" ++ endl)
      (by intro ss a; simp [String.append_assoc])]
  have hc := toStringList_corrections (dev.hasDCOffsetMode dir chan) (dev.hasDCOffset dir chan)
    (dev.hasIQBalance dir chan)
  rw [hc]
  simp only [unlines_append, unlines_cons, unlines_nil, unlines_labelled, unlines_map,
    unlines_ite_nil, String.append_assoc, String.append_empty, String.empty_append, yesNo]

theorem foldl_append_of (f : String → α → String) (g : α → String)
    (hf : ∀ ss a, f ss a = ss ++ g a) (l : List α) (init : String) :
    l.foldl f init = init ++ String.join (l.map g) := by
  induction l generalizing init with
  | nil => simp [join_nil]
  | cons x xs ih => simp [ih, hf, join_cons, String.append_assoc]

theorem SoapySDRDeviceProbe_eq {R : Type} (D : DoubleOps R) (dev : Device Id R) :
    Id.run (SoapySDRDeviceProbe D dev)
      = unlines (identificationLines dev) ++ unlines (peripheralLines dev)
        ++ String.join ((List.range (Id.run (dev.getNumChannels SOAPY_SDR_RX))).map
            (fun chan => Id.run (probeChannel D dev SOAPY_SDR_RX chan)))
        ++ String.join ((List.range (Id.run (dev.getNumChannels SOAPY_SDR_TX))).map
            (fun chan => Id.run (probeChannel D dev SOAPY_SDR_TX chan))) := by
  unfold SoapySDRDeviceProbe identificationLines peripheralLines
  simp only [bind, pure, Id.run, ite_append3]
  rw [foldlM_id_of _ (fun chan => probeChannel D dev SOAPY_SDR_TX chan) (by intro ss a; rfl)]
  rw [foldlM_id_of _ (fun chan => probeChannel D dev SOAPY_SDR_RX chan) (by intro ss a; rfl)]
  rw [foldl_append_of _ (fun it : String × String => "  " ++ it.1 ++ "=" ++ it.2 ++ endl)
      (by intro ss a; simp [String.append_assoc])]
  simp only [unlines_append, unlines_cons, unlines_nil, unlines_labelled, unlines_map,
    String.append_assoc, String.append_empty, String.empty_append, yesNo]

theorem toDigits_ne_nil (n : Nat) : Nat.toDigits 10 n ≠ [] := by
  unfold Nat.toDigits
  rw [Nat.toDigitsCore]
  split
  · simp
  · intro h
    have := Nat.toDigitsCore_lens_eq 10 n (n / 10) (Nat.digitChar (n % 10)) []
    rw [h] at this
    simp at this

theorem natToString_ne_empty (n : Nat) : toString n ≠ "" := by
  show (Nat.toDigits 10 n).asString ≠ ""
  intro h
  have := congrArg String.data h
  exact toDigits_ne_nil n this

theorem wholeOps_fmt_ne_empty (x : Int) : wholeOps.fmt x ≠ "" := by
  show toString x ≠ ""
  cases x with
  | ofNat m => exact natToString_ne_empty m
  | negSucc m =>
    show "-" ++ toString (Nat.succ m) ≠ ""
    simp [append_eq_empty_iff]

theorem toStringRangeList_eq {R : Type} (D : DoubleOps R) (ranges : List (Range R)) (scale : R) :
    toStringRangeList D ranges scale
      = ", ".intercalate (ranges.map (fun r =>
          "[" ++ D.fmt (D.div r.minimum scale) ++ ", " ++ D.fmt (D.div r.maximum scale) ++ "]")) := by
  unfold toStringRangeList
  have h := sepLoop_empty (fun r : Range R =>
    "[" ++ D.fmt (D.div r.minimum scale) ++ ", " ++ D.fmt (D.div r.maximum scale) ++ "]") ranges
  rw [dropWhile_empty_of_all_ne] at h
  · rw [← h]
    congr 1
    funext ss r
    simp [String.append_assoc]
  · intro s hs
    obtain ⟨r, -, rfl⟩ := List.mem_map.1 hs
    simp [append_eq_empty_iff]

theorem toStringNums_small {R : Type} (D : DoubleOps R) (hfmt : ∀ x, D.fmt x ≠ "")
    (nums : List R) (scale : R) (h : nums.length ≤ 3) :
    toStringNums D nums scale
      = "[" ++ ", ".intercalate (nums.map (fun x => D.fmt (D.div x scale))) ++ "]" := by
  unfold toStringNums
  rw [dif_neg (by omega)]
  have h2 := sepLoop_empty (fun x : R => D.fmt (D.div x scale)) nums
  rw [dropWhile_empty_of_all_ne] at h2
  · rw [h2]
  · intro s hs
    obtain ⟨r, -, rfl⟩ := List.mem_map.1 hs
    exact hfmt _

theorem toStringNums_large {R : Type} (D : DoubleOps R) (nums : List R) (scale first last : R)
    (h : nums.length > 3) (hfirst : nums.head? = some first) (hlast : nums.getLast? = some last) :
    toStringNums D nums scale
      = "[" ++ D.fmt (D.div first scale) ++ ", " ++ D.fmt (D.div last scale) ++ "]" := by
  unfold toStringNums
  rw [dif_pos h]
  have hne : nums ≠ [] := List.ne_nil_of_length_pos (by omega)
  have h1 : nums.head hne = first := by
    rw [List.head?_eq_head hne] at hfirst
    exact Option.some.inj hfirst
  have h2 : nums.getLast hne = last := by
    rw [List.getLast?_eq_getLast _ hne] at hlast
    exact Option.some.inj hlast
  rw [h1, h2]

/-- C1: with a number text that is never empty (true of `operator<<` on a
`double`), `toString(nums, scale)` is `[first/scale, last/scale]` when `nums`
has more than 3 entries, and otherwise `[` , every entry divided by `scale`
in order joined by `, `, and `]`; the empty list gives `[]`. It holds for every
scale, zero included. -/
theorem toStringNums_spec {R : Type} (D : DoubleOps R) (hfmt : ∀ x, D.fmt x ≠ "")
    (nums : List R) (scale : R) :
    (∀ first last, nums.length > 3 → nums.head? = some first → nums.getLast? = some last →
        toStringNums D nums scale
          = "[" ++ D.fmt (D.div first scale) ++ ", " ++ D.fmt (D.div last scale) ++ "]")
    ∧ (nums.length ≤ 3 →
        toStringNums D nums scale
          = "[" ++ ", ".intercalate (nums.map (fun x => D.fmt (D.div x scale))) ++ "]")
    ∧ toStringNums D [] scale = "[]" :=
  ⟨fun first last h hf hl => toStringNums_large D nums scale first last h hf hl,
    toStringNums_small D hfmt nums scale,
    by simp [toStringNums]⟩

/-- The examples of C1 on whole numbers: three entries are all shown, four
collapse to the first and the last. -/
theorem toStringNums_spec_witness :
    (∀ x, wholeOps.fmt x ≠ "")
    ∧ toStringNums wholeOps [1000000, 2000000, 3000000] 1000000 = "[1, 2, 3]"
    ∧ toStringNums wholeOps [1000000, 2000000, 3000000, 4000000] 1000000 = "[1, 4]" :=
  ⟨wholeOps_fmt_ne_empty,
    ((toStringNums_spec wholeOps wholeOps_fmt_ne_empty [1000000, 2000000, 3000000] 1000000).2.1
      (by decide)).trans (by decide),
    ((toStringNums_spec wholeOps wholeOps_fmt_ne_empty
        [1000000, 2000000, 3000000, 4000000] 1000000).1 1000000 4000000
      (by decide) rfl rfl).trans (by decide)⟩

/-- C2 as stated fails: an empty first string gets no separator after it, so
the list `["", "a"]` gives `a` where the join is `, a`. -/
theorem toStringList_join_counterexample :
    toStringList ["", "a"] = "a" ∧ ", ".intercalate ["", "a"] = ", a"
    ∧ toStringList ["", "a"] ≠ ", ".intercalate ["", "a"] := by
  decide

/-- C2, amended: `toString(list)` is the join by `, ` of the list without its
leading empty strings, with no brackets; so for a list whose first element is
not empty it is the join of all its elements, and the empty list gives the
empty string. -/
theorem toStringList_spec (options : List String) :
    toStringList options = ", ".intercalate (options.dropWhile (fun s => s == ""))
    ∧ (options.head? ≠ some "" → toStringList options = ", ".intercalate options)
    ∧ toStringList [] = "" := by
  refine ⟨toStringList_eq options, ?_, rfl⟩
  intro h
  rw [toStringList_eq]
  cases options with
  | nil => rfl
  | cons x xs =>
    have hx : x ≠ "" := by
      intro hx
      exact h (by simp [hx])
    simp [List.dropWhile_cons, hx]

/-- An instance of the amended C2: three names, two separators. -/
theorem toStringList_spec_witness :
    ["RX", "TX", "LO"].head? ≠ some "" ∧ toStringList ["RX", "TX", "LO"] = "RX, TX, LO" :=
  ⟨by decide, ((toStringList_spec ["RX", "TX", "LO"]).2.1 (by decide)).trans (by decide)⟩

/-- C7: `toString(ranges, scale)` is the entries `[min/scale, max/scale]`, one
per range in list order, joined by `, `; the empty list gives the empty
string, and the list `[(1e6, 2e6)]` with scale `1e6` gives `[1, 2]`. It holds
for every scale, zero included. -/
theorem toStringRangeList_spec {R : Type} (D : DoubleOps R) (ranges : List (Range R))
    (scale : R) :
    toStringRangeList D ranges scale
      = ", ".intercalate (ranges.map (fun r =>
          "[" ++ D.fmt (D.div r.minimum scale) ++ ", " ++ D.fmt (D.div r.maximum scale) ++ "]"))
    ∧ toStringRangeList D [] scale = ""
    ∧ toStringRangeList wholeOps [⟨1000000, 2000000⟩] 1000000 = "[1, 2]" :=
  ⟨toStringRangeList_eq D ranges scale, rfl, by decide⟩

theorem labelled_empty (label : String) : labelled label "" = [] := by
  simp [labelled]

theorem toStringList_nil : toStringList [] = "" := rfl

theorem labelled_toStringList (label : String) (names : List String) :
    labelled label (toStringList names) = namesLine label names := by
  unfold labelled namesLine
  by_cases h : ∀ s ∈ names, s = ""
  · rw [if_pos h, if_neg (by rw [ne_eq, not_not]; exact (toStringList_eq_empty_iff names).2 h)]
  · rw [if_neg h, if_pos (by rw [ne_eq, toStringList_eq_empty_iff]; exact h)]

theorem channel_no_antennas {R : Type} (D : DoubleOps R) (dev : Device Id R) (dir : Int)
    (chan : Nat) (h : Id.run (dev.listAntennas dir chan) = []) :
    ∀ l ∈ channelLines D dev dir chan, ¬ hasLabel "  Antennas: " l := by
  simp only [channelLines, h, toStringList_nil, labelled_empty]
  simp [hasLabel, divider, labelled, or_imp, forall_and]

theorem channel_no_bandwidths {R : Type} (D : DoubleOps R) (dev : Device Id R) (dir : Int)
    (chan : Nat) (h : Id.run (dev.listBandwidths dir chan) = []) :
    ∀ l ∈ channelLines D dev dir chan, ¬ hasLabel "  Filter bandwidths: " l := by
  simp only [channelLines, h, toStringList_nil, labelled_empty]
  simp [hasLabel, divider, labelled, or_imp, forall_and]

theorem channel_no_sensors {R : Type} (D : DoubleOps R) (dev : Device Id R) (dir : Int)
    (chan : Nat) (h : Id.run (dev.listSensorsChan dir chan) = []) :
    ∀ l ∈ channelLines D dev dir chan, ¬ hasLabel "  Sensors: " l := by
  simp only [channelLines, h, toStringList_nil, labelled_empty]
  simp [hasLabel, divider, labelled, or_imp, forall_and]

theorem peripheral_no_label {R : Type} (dev : Device Id R) :
    (Id.run dev.listClockSources = [] →
      ∀ l ∈ peripheralLines dev, ¬ hasLabel "  Clock sources: " l)
    ∧ (Id.run dev.listTimeSources = [] →
      ∀ l ∈ peripheralLines dev, ¬ hasLabel "  Time sources: " l)
    ∧ (Id.run dev.listSensors = [] → ∀ l ∈ peripheralLines dev, ¬ hasLabel "  Sensors: " l)
    ∧ (Id.run dev.listGPIOBanks = [] → ∀ l ∈ peripheralLines dev, ¬ hasLabel "  GPIOs: " l)
    ∧ (Id.run dev.listUARTs = [] → ∀ l ∈ peripheralLines dev, ¬ hasLabel "  UARTs: " l) := by
  refine ⟨?_, ?_, ?_, ?_, ?_⟩ <;> intro h <;>
    simp only [peripheralLines, h, toStringList_nil, labelled_empty] <;>
    simp [hasLabel, divider, labelled, or_imp, forall_and]

theorem sampleRates_line_mem {R : Type} (D : DoubleOps R) (dev : Device Id R) (dir : Int)
    (chan : Nat) :
    "  Sample rates: " ++ toStringNums D (Id.run (dev.listSampleRates dir chan)) D.lit1e6
      ++ " MHz" ∈ channelLines D dev dir chan := by
  simp [channelLines]

theorem freqRange_line_mem {R : Type} (D : DoubleOps R) (dev : Device Id R) (dir : Int)
    (chan : Nat) :
    "  Full freq range: " ++ toStringRangeList D (Id.run (dev.getFrequencyRange dir chan)) D.lit1e6
      ++ " MHz" ∈ channelLines D dev dir chan := by
  simp [channelLines]

/-- C3 as stated fails: with an empty sample-rate list and an empty frequency
range list the channel section still has its `Sample rates:` and
`Full freq range:` lines, written as `  Sample rates: [] MHz` and
`  Full freq range:  MHz`. -/
theorem emptyList_lines_counterexample :
    Id.run (bareDevice.listSampleRates SOAPY_SDR_RX 0) = []
    ∧ Id.run (bareDevice.getFrequencyRange SOAPY_SDR_RX 0) = []
    ∧ Id.run (probeChannel wholeOps bareDevice SOAPY_SDR_RX 0)
        = unlines ["", divider, "-- RX Channel 0", divider, "  Full-duplex: NO",
            "  Full gain range: [0, 0] dB", "  Full freq range:  MHz", "  Sample rates: [] MHz"]
    ∧ hasLabel "  Sample rates: " "  Sample rates: [] MHz"
    ∧ hasLabel "  Full freq range: " "  Full freq range:  MHz" :=
  ⟨rfl, rfl, by decide, by decide, by decide⟩

/-- C3, amended: the channel section is its lines in order; it has no
`Antennas:`, `Filter bandwidths:` or `Sensors:` line when `listAntennas`,
`listBandwidths` or `listSensors(dir, chan)` is empty, and the peripheral
summary of the device report has no `Clock sources:`, `Time sources:`,
`Sensors:`, `GPIOs:` or `UARTs:` line when the matching list is empty; the
`Sample rates:` and `Full freq range:` lines are always written. -/
theorem emptyList_lines_omitted {R : Type} (D : DoubleOps R) (dev : Device Id R) (dir : Int)
    (chan : Nat) :
    Id.run (probeChannel D dev dir chan) = unlines (channelLines D dev dir chan)
    ∧ (Id.run (dev.listAntennas dir chan) = [] →
        ∀ l ∈ channelLines D dev dir chan, ¬ hasLabel "  Antennas: " l)
    ∧ (Id.run (dev.listBandwidths dir chan) = [] →
        ∀ l ∈ channelLines D dev dir chan, ¬ hasLabel "  Filter bandwidths: " l)
    ∧ (Id.run (dev.listSensorsChan dir chan) = [] →
        ∀ l ∈ channelLines D dev dir chan, ¬ hasLabel "  Sensors: " l)
    ∧ Id.run (SoapySDRDeviceProbe D dev)
        = unlines (identificationLines dev) ++ unlines (peripheralLines dev)
          ++ String.join ((List.range (Id.run (dev.getNumChannels SOAPY_SDR_RX))).map
              (fun i => Id.run (probeChannel D dev SOAPY_SDR_RX i)))
          ++ String.join ((List.range (Id.run (dev.getNumChannels SOAPY_SDR_TX))).map
              (fun j => Id.run (probeChannel D dev SOAPY_SDR_TX j)))
    ∧ (Id.run dev.listClockSources = [] →
        ∀ l ∈ peripheralLines dev, ¬ hasLabel "  Clock sources: " l)
    ∧ (Id.run dev.listTimeSources = [] →
        ∀ l ∈ peripheralLines dev, ¬ hasLabel "  Time sources: " l)
    ∧ (Id.run dev.listSensors = [] → ∀ l ∈ peripheralLines dev, ¬ hasLabel "  Sensors: " l)
    ∧ (Id.run dev.listGPIOBanks = [] → ∀ l ∈ peripheralLines dev, ¬ hasLabel "  GPIOs: " l)
    ∧ (Id.run dev.listUARTs = [] → ∀ l ∈ peripheralLines dev, ¬ hasLabel "  UARTs: " l)
    ∧ "  Sample rates: " ++ toStringNums D (Id.run (dev.listSampleRates dir chan)) D.lit1e6
        ++ " MHz" ∈ channelLines D dev dir chan
    ∧ "  Full freq range: "
        ++ toStringRangeList D (Id.run (dev.getFrequencyRange dir chan)) D.lit1e6
        ++ " MHz" ∈ channelLines D dev dir chan :=
  ⟨probeChannel_eq D dev dir chan, channel_no_antennas D dev dir chan,
    channel_no_bandwidths D dev dir chan, channel_no_sensors D dev dir chan,
    SoapySDRDeviceProbe_eq D dev, (peripheral_no_label dev).1, (peripheral_no_label dev).2.1,
    (peripheral_no_label dev).2.2.1, (peripheral_no_label dev).2.2.2.1,
    (peripheral_no_label dev).2.2.2.2, sampleRates_line_mem D dev dir chan,
    freqRange_line_mem D dev dir chan⟩

/-- The amended C3 on the device whose lists are all empty: none of the eight
guarded lines is written. -/
theorem emptyList_lines_omitted_witness :
    (∀ l ∈ channelLines wholeOps bareDevice SOAPY_SDR_RX 0, ¬ hasLabel "  Antennas: " l)
    ∧ (∀ l ∈ channelLines wholeOps bareDevice SOAPY_SDR_RX 0,
        ¬ hasLabel "  Filter bandwidths: " l)
    ∧ (∀ l ∈ channelLines wholeOps bareDevice SOAPY_SDR_RX 0, ¬ hasLabel "  Sensors: " l)
    ∧ (∀ l ∈ peripheralLines bareDevice, ¬ hasLabel "  Clock sources: " l)
    ∧ (∀ l ∈ peripheralLines bareDevice, ¬ hasLabel "  Time sources: " l)
    ∧ (∀ l ∈ peripheralLines bareDevice, ¬ hasLabel "  Sensors: " l)
    ∧ (∀ l ∈ peripheralLines bareDevice, ¬ hasLabel "  GPIOs: " l)
    ∧ (∀ l ∈ peripheralLines bareDevice, ¬ hasLabel "  UARTs: " l) :=
  have h := emptyList_lines_omitted wholeOps bareDevice SOAPY_SDR_RX 0
  ⟨h.2.1 rfl, h.2.2.1 rfl, h.2.2.2.1 rfl, h.2.2.2.2.2.1 rfl, h.2.2.2.2.2.2.1 rfl,
    h.2.2.2.2.2.2.2.1 rfl, h.2.2.2.2.2.2.2.2.1 rfl, h.2.2.2.2.2.2.2.2.2.1 rfl⟩

theorem titles_append (a b : List String) : titles (a ++ b) = titles a ++ titles b := by
  simp [titles]

theorem titles_labelled (label text : String) (h : isTitle (label ++ text) = false) :
    titles (labelled label text) = [] := by
  unfold labelled titles
  split <;> simp [h]

theorem titles_map_nil (f : α → String) (l : List α) (h : ∀ x, isTitle (f x) = false) :
    titles (l.map f) = [] := by
  simp [titles, List.filter_eq_nil_iff, h]

theorem titles_identificationLines {R : Type} (dev : Device Id R) :
    titles (identificationLines dev) = ["-- Device identification"] := by
  unfold identificationLines
  rw [titles_append, titles_map_nil _ _ (by intro x; simp [isTitle, hasLabel])]
  simp [titles, isTitle, hasLabel, divider]

theorem titles_peripheralLines {R : Type} (dev : Device Id R) :
    titles (peripheralLines dev) = ["-- Peripheral summary"] := by
  unfold peripheralLines
  simp only [titles_append]
  rw [titles_labelled _ _ (by simp [isTitle, hasLabel]),
    titles_labelled _ _ (by simp [isTitle, hasLabel]),
    titles_labelled _ _ (by simp [isTitle, hasLabel]),
    titles_labelled _ _ (by simp [isTitle, hasLabel]),
    titles_labelled _ _ (by simp [isTitle, hasLabel])]
  simp [titles, isTitle, hasLabel, divider]

theorem titles_channelLines {R : Type} (D : DoubleOps R) (dev : Device Id R) (dir : Int)
    (chan : Nat) :
    titles (channelLines D dev dir chan)
      = ["-- " ++ (if dir = SOAPY_SDR_TX then "TX" else "RX") ++ " Channel " ++ toString chan] := by
  unfold channelLines
  simp only [titles_append]
  rw [titles_labelled _ _ (by simp [isTitle, hasLabel]),
    titles_labelled _ _ (by simp [isTitle, hasLabel]),
    titles_labelled _ _ (by simp [isTitle, hasLabel]),
    titles_map_nil _ _ (by intro x; simp [isTitle, hasLabel]),
    titles_map_nil _ _ (by intro x; simp [isTitle, hasLabel])]
  have : titles (if (Id.run (dev.listBandwidths dir chan)).isEmpty then []
      else ["  Filter bandwidths: "
        ++ toStringNums D (Id.run (dev.listBandwidths dir chan)) D.lit1e6 ++ " MHz"]) = [] := by
    split <;> simp [titles, isTitle, hasLabel]
  rw [this]
  simp [titles, isTitle, hasLabel, divider, String.append_assoc]

theorem unlines_flatten_map (f : α → List String) (l : List α) :
    unlines ((l.map f).flatten) = String.join (l.map (fun x => unlines (f x))) := by
  induction l with
  | nil => rfl
  | cons x xs ih => simp [unlines_append, join_cons, ih]

theorem SoapySDRDeviceProbe_eq_unlines {R : Type} (D : DoubleOps R) (dev : Device Id R) :
    Id.run (SoapySDRDeviceProbe D dev) = unlines (reportLines D dev) := by
  rw [SoapySDRDeviceProbe_eq]
  simp only [reportLines, unlines_append, unlines_flatten_map, probeChannel_eq]

theorem titles_flatten_map (f : α → List String) (g : α → String) (l : List α)
    (h : ∀ x, titles (f x) = [g x]) : titles ((l.map f).flatten) = l.map g := by
  induction l with
  | nil => rfl
  | cons x xs ih => simp [titles_append, h, ih]

theorem titles_reportLines {R : Type} (D : DoubleOps R) (dev : Device Id R) :
    titles (reportLines D dev)
      = ["-- Device identification", "-- Peripheral summary"]
        ++ (List.range (Id.run (dev.getNumChannels SOAPY_SDR_RX))).map
            (fun i => "-- RX Channel " ++ toString i)
        ++ (List.range (Id.run (dev.getNumChannels SOAPY_SDR_TX))).map
            (fun j => "-- TX Channel " ++ toString j) := by
  unfold reportLines
  simp only [titles_append, titles_identificationLines, titles_peripheralLines]
  rw [titles_flatten_map _ (fun i => "-- RX Channel " ++ toString i) _
      (by intro x; rw [titles_channelLines]; simp [SOAPY_SDR_RX, SOAPY_SDR_TX, String.append_assoc]),
    titles_flatten_map _ (fun j => "-- TX Channel " ++ toString j) _
      (by intro x; rw [titles_channelLines]; simp [String.append_assoc])]
  rfl

theorem count_titles (a : String) (h : isTitle a = true) (ls : List String) :
    ls.count a = (titles ls).count a := by
  unfold titles
  rw [List.count_filter h]

theorem isTitle_of_hasLabel (p l : String) (hp : hasLabel "-- " p) (h : hasLabel p l) :
    isTitle l = true := by
  unfold isTitle
  exact decide_eq_true (List.IsPrefix.trans hp h)

theorem peripheralLines_of_empty {R : Type} (dev : Device Id R)
    (hclock : Id.run dev.listClockSources = []) (htime : Id.run dev.listTimeSources = [])
    (hsensors : Id.run dev.listSensors = []) (hgpios : Id.run dev.listGPIOBanks = [])
    (huarts : Id.run dev.listUARTs = []) :
    peripheralLines dev
      = ["", divider, "-- Peripheral summary", divider,
          "  Channels: " ++ toString (Id.run (dev.getNumChannels SOAPY_SDR_RX)) ++ " Rx, "
            ++ toString (Id.run (dev.getNumChannels SOAPY_SDR_TX)) ++ " Tx",
          "  Timestamps: " ++ yesNo (Id.run dev.hasHardwareTime)] := by
  simp [peripheralLines, hclock, htime, hsensors, hgpios, huarts, toStringList_nil,
    labelled_empty]

/-- C4: for a device whose queries all return, the report is the
identification section, then the peripheral summary, then the section of each
RX channel `0, ..., numRx-1` in increasing order, then the section of each TX
channel `0, ..., numTx-1` in increasing order, and nothing else; so its section
titles are the two device titles, the RX titles by increasing index, then the
TX titles by increasing index. -/
theorem report_structure {R : Type} (D : DoubleOps R) (dev : Device Id R) :
    Id.run (SoapySDRDeviceProbe D dev)
      = unlines (identificationLines dev) ++ unlines (peripheralLines dev)
        ++ String.join ((List.range (Id.run (dev.getNumChannels SOAPY_SDR_RX))).map
            (fun i => Id.run (probeChannel D dev SOAPY_SDR_RX i)))
        ++ String.join ((List.range (Id.run (dev.getNumChannels SOAPY_SDR_TX))).map
            (fun j => Id.run (probeChannel D dev SOAPY_SDR_TX j)))
    ∧ Id.run (SoapySDRDeviceProbe D dev) = unlines (reportLines D dev)
    ∧ titles (reportLines D dev)
        = ["-- Device identification", "-- Peripheral summary"]
          ++ (List.range (Id.run (dev.getNumChannels SOAPY_SDR_RX))).map
              (fun i => "-- RX Channel " ++ toString i)
          ++ (List.range (Id.run (dev.getNumChannels SOAPY_SDR_TX))).map
              (fun j => "-- TX Channel " ++ toString j) :=
  ⟨SoapySDRDeviceProbe_eq D dev, SoapySDRDeviceProbe_eq_unlines D dev, titles_reportLines D dev⟩

theorem identification_label_lines {R : Type} (dev : Device Id R) (label : String)
    (h1 : ¬ hasLabel label "") (h2 : ¬ hasLabel label divider)
    (h3 : ¬ hasLabel label "-- Device identification")
    (h4 : ∀ x, ¬ hasLabel label ("  driver=" ++ x))
    (h5 : ∀ x, ¬ hasLabel label ("  hardware=" ++ x)) :
    ∀ l ∈ identificationLines dev, hasLabel label l →
      l ∈ (Id.run dev.getHardwareInfo).map (fun it => "  " ++ it.1 ++ "=" ++ it.2) := by
  intro l hl hlab
  unfold identificationLines at hl
  rcases List.mem_append.1 hl with h | h
  · simp only [List.mem_cons, List.mem_singleton, List.not_mem_nil, or_false] at h
    rcases h with rfl | rfl | rfl | rfl | rfl | rfl
    · exact absurd hlab h1
    · exact absurd hlab h2
    · exact absurd hlab h3
    · exact absurd hlab h2
    · exact absurd hlab (h4 _)
    · exact absurd hlab (h5 _)
  · exact h

theorem channel_other_labels {R : Type} (D : DoubleOps R) (dev : Device Id R) (dir : Int)
    (chan : Nat) :
    ∀ l ∈ channelLines D dev dir chan, ¬ hasLabel "  Clock sources: " l
      ∧ ¬ hasLabel "  Time sources: " l ∧ ¬ hasLabel "  GPIOs: " l ∧ ¬ hasLabel "  UARTs: " l := by
  simp [channelLines, hasLabel, divider, labelled, or_imp, forall_and]

theorem channel_sensors_line {R : Type} (D : DoubleOps R) (dev : Device Id R) (dir : Int)
    (chan : Nat) :
    ∀ l ∈ channelLines D dev dir chan, hasLabel "  Sensors: " l →
      l = "  Sensors: " ++ toStringList (Id.run (dev.listSensorsChan dir chan)) := by
  simp [channelLines, hasLabel, divider, labelled, or_imp, forall_and]

theorem identification_peripheral_labels {R : Type} (dev : Device Id R) :
    ∀ l ∈ identificationLines dev,
      (hasLabel "  Clock sources: " l ∨ hasLabel "  Time sources: " l ∨ hasLabel "  Sensors: " l
        ∨ hasLabel "  GPIOs: " l ∨ hasLabel "  UARTs: " l) →
      l ∈ (Id.run dev.getHardwareInfo).map (fun it => "  " ++ it.1 ++ "=" ++ it.2) := by
  intro l hl hlab
  rcases hlab with h | h | h | h | h <;>
    exact identification_label_lines dev _ (by decide) (by decide) (by decide)
      (by intro x; simp [hasLabel]) (by intro x; simp [hasLabel]) l hl h

/-- C5: a device that reports 1 RX channel, 0 TX channels and empty clock
source, time source, sensor, GPIO bank and UART lists gets a report whose
lines are the identification section, a peripheral summary of exactly the
divider block, the `Channels: 1 Rx, 0 Tx` line and the `Timestamps:` line
(so none of the five optional peripheral lines), and the section of RX
channel 0; its section titles are the three listed, so the line
`-- RX Channel 0` occurs exactly once and no line starts `-- TX Channel`. In
the whole report a line that starts with one of the five peripheral labels can
only be a `key=value` line of the hardware info or, for `Sensors:`, the line
of the sensors of the channel. -/
theorem single_rx_report {R : Type} (D : DoubleOps R) (dev : Device Id R)
    (hrx : Id.run (dev.getNumChannels SOAPY_SDR_RX) = 1)
    (htx : Id.run (dev.getNumChannels SOAPY_SDR_TX) = 0)
    (hclock : Id.run dev.listClockSources = []) (htime : Id.run dev.listTimeSources = [])
    (hsensors : Id.run dev.listSensors = []) (hgpios : Id.run dev.listGPIOBanks = [])
    (huarts : Id.run dev.listUARTs = []) :
    ∃ ls peripheral : List String,
      Id.run (SoapySDRDeviceProbe D dev) = unlines ls
      ∧ ls = identificationLines dev ++ peripheral ++ channelLines D dev SOAPY_SDR_RX 0
      ∧ peripheral = ["", divider, "-- Peripheral summary", divider, "  Channels: 1 Rx, 0 Tx",
          "  Timestamps: " ++ yesNo (Id.run dev.hasHardwareTime)]
      ∧ titles ls = ["-- Device identification", "-- Peripheral summary", "-- RX Channel 0"]
      ∧ ls.count "-- RX Channel 0" = 1
      ∧ (∀ l ∈ ls, ¬ hasLabel "-- TX Channel" l)
      ∧ (∀ l ∈ peripheral, ¬ hasLabel "  Clock sources: " l ∧ ¬ hasLabel "  Time sources: " l
          ∧ ¬ hasLabel "  Sensors: " l ∧ ¬ hasLabel "  GPIOs: " l ∧ ¬ hasLabel "  UARTs: " l)
      ∧ (∀ l ∈ ls,
          (hasLabel "  Clock sources: " l ∨ hasLabel "  Time sources: " l
            ∨ hasLabel "  Sensors: " l ∨ hasLabel "  GPIOs: " l ∨ hasLabel "  UARTs: " l) →
          l ∈ (Id.run dev.getHardwareInfo).map (fun it => "  " ++ it.1 ++ "=" ++ it.2)
          ∨ l = "  Sensors: " ++ toStringList (Id.run (dev.listSensorsChan SOAPY_SDR_RX 0))) := by
  have hper := peripheralLines_of_empty dev hclock htime hsensors hgpios huarts
  have hls : reportLines D dev
      = identificationLines dev ++ peripheralLines dev ++ channelLines D dev SOAPY_SDR_RX 0 := by
    simp [reportLines, hrx, htx, List.range_succ]
  have ht : titles (reportLines D dev)
      = ["-- Device identification", "-- Peripheral summary", "-- RX Channel 0"] := by
    rw [titles_reportLines, hrx, htx]
    decide
  have hnone : ∀ l ∈ peripheralLines dev, ¬ hasLabel "  Clock sources: " l
      ∧ ¬ hasLabel "  Time sources: " l ∧ ¬ hasLabel "  Sensors: " l ∧ ¬ hasLabel "  GPIOs: " l
      ∧ ¬ hasLabel "  UARTs: " l := by
    rw [hper]
    simp [hasLabel, divider, or_imp, forall_and]
  refine ⟨reportLines D dev, peripheralLines dev, SoapySDRDeviceProbe_eq_unlines D dev, hls, ?_,
    ht, ?_, ?_, hnone, ?_⟩
  · rw [hper, hrx, htx]
    simp
    decide
  · rw [count_titles _ (by decide), ht]
    decide
  · intro l hl hlab
    have hmem : l ∈ titles (reportLines D dev) := by
      unfold titles
      exact List.mem_filter.2 ⟨hl, isTitle_of_hasLabel "-- TX Channel" l (by decide) hlab⟩
    rw [ht] at hmem
    simp only [List.mem_cons, List.mem_singleton, List.not_mem_nil, or_false] at hmem
    rcases hmem with rfl | rfl | rfl <;> exact absurd hlab (by decide)
  · intro l hl hlab
    rw [hls] at hl
    rcases List.mem_append.1 hl with h | h
    · rcases List.mem_append.1 h with h | h
      · exact Or.inl (identification_peripheral_labels dev l h hlab)
      · obtain ⟨n1, n2, n3, n4, n5⟩ := hnone l h
        rcases hlab with h' | h' | h' | h' | h'
        · exact absurd h' n1
        · exact absurd h' n2
        · exact absurd h' n3
        · exact absurd h' n4
        · exact absurd h' n5
    · obtain ⟨n1, n2, n4, n5⟩ := channel_other_labels D dev SOAPY_SDR_RX 0 l h
      rcases hlab with h' | h' | h' | h' | h'
      · exact absurd h' n1
      · exact absurd h' n2
      · exact Or.inr (channel_sensors_line D dev SOAPY_SDR_RX 0 l h h')
      · exact absurd h' n4
      · exact absurd h' n5

/-- C5 on the device with one RX channel and nothing optional. -/
theorem single_rx_report_witness :
    ∃ ls peripheral : List String,
      Id.run (SoapySDRDeviceProbe wholeOps bareDevice) = unlines ls
      ∧ ls = identificationLines bareDevice ++ peripheral
          ++ channelLines wholeOps bareDevice SOAPY_SDR_RX 0
      ∧ peripheral = ["", divider, "-- Peripheral summary", divider, "  Channels: 1 Rx, 0 Tx",
          "  Timestamps: " ++ yesNo (Id.run bareDevice.hasHardwareTime)]
      ∧ titles ls = ["-- Device identification", "-- Peripheral summary", "-- RX Channel 0"]
      ∧ ls.count "-- RX Channel 0" = 1
      ∧ (∀ l ∈ ls, ¬ hasLabel "-- TX Channel" l) := by
  obtain ⟨ls, peripheral, h1, h2, h3, h4, h5, h6, -⟩ :=
    single_rx_report wholeOps bareDevice rfl rfl rfl rfl rfl rfl rfl
  exact ⟨ls, peripheral, h1, h2, h3, h4, h5, h6⟩

theorem channelLines_split {R : Type} (D : DoubleOps R) (dev : Device Id R) (dir : Int)
    (chan : Nat) :
    channelLines D dev dir chan
      = channelOpening dev dir chan
        ++ channelCorrections dev dir chan
        ++ channelRanges D dev dir chan
        ++ channelClosing D dev dir chan := by
  simp only [channelLines, channelOpening, channelCorrections, channelRanges, channelClosing,
    List.append_assoc]

theorem channelLines_names {R : Type} (D : DoubleOps R) (dev : Device Id R) (dir : Int)
    (chan : Nat) :
    channelLines D dev dir chan
      = channelHeader dev dir chan
        ++ namesLine "  Antennas: " (Id.run (dev.listAntennas dir chan))
        ++ (channelCorrections dev dir chan ++ channelRanges D dev dir chan
          ++ channelRates D dev dir chan)
        ++ namesLine "  Sensors: " (Id.run (dev.listSensorsChan dir chan)) := by
  simp only [channelLines, channelHeader, channelCorrections, channelRanges, channelRates,
    labelled_toStringList, List.append_assoc]

/-- C8: the channel section is, in this order and with nothing else, its
opening lines (title block, full-duplex, antennas), its corrections line, the
line `  Full gain range: [min, max] dB` with the bounds of
`getGainRange(dir, chan)` as they are, one line
`    <name> gain range: [min, max] dB` for each name of `listGains(dir, chan)`
in that order, the line `  Full freq range: ... MHz`, one line
`    <name> freq range: ... MHz` for each name of `listFrequencies(dir, chan)`
in that order, every frequency bound divided by `1e6`, and its closing lines
(sample rates, bandwidths, sensors); none of the opening, corrections and
closing lines is indented by four blanks or starts with `  Full gain range: `
or `  Full freq range: `. -/
theorem gain_and_freq_lines {R : Type} (D : DoubleOps R) (dev : Device Id R) (dir : Int)
    (chan : Nat) :
    Id.run (probeChannel D dev dir chan)
      = unlines ((channelOpening dev dir chan ++ channelCorrections dev dir chan)
        ++ (["  Full gain range: [" ++ D.fmt (Id.run (dev.getGainRange dir chan)).minimum
              ++ ", " ++ D.fmt (Id.run (dev.getGainRange dir chan)).maximum ++ "] dB"]
          ++ (Id.run (dev.listGains dir chan)).map
              (fun name => "    " ++ name ++ " gain range: ["
                ++ D.fmt (Id.run (dev.getGainRangeNamed dir chan name)).minimum ++ ", "
                ++ D.fmt (Id.run (dev.getGainRangeNamed dir chan name)).maximum ++ "] dB")
          ++ ["  Full freq range: "
              ++ ", ".intercalate ((Id.run (dev.getFrequencyRange dir chan)).map (fun r =>
                  "[" ++ D.fmt (D.div r.minimum D.lit1e6) ++ ", "
                    ++ D.fmt (D.div r.maximum D.lit1e6) ++ "]"))
              ++ " MHz"]
          ++ (Id.run (dev.listFrequencies dir chan)).map
              (fun name => "    " ++ name ++ " freq range: "
                ++ ", ".intercalate
                    ((Id.run (dev.getFrequencyRangeNamed dir chan name)).map (fun r =>
                      "[" ++ D.fmt (D.div r.minimum D.lit1e6) ++ ", "
                        ++ D.fmt (D.div r.maximum D.lit1e6) ++ "]"))
                ++ " MHz"))
        ++ channelClosing D dev dir chan)
    ∧ ∀ l ∈ (channelOpening dev dir chan ++ channelCorrections dev dir chan)
          ++ channelClosing D dev dir chan,
        ¬ hasLabel "    " l ∧ ¬ hasLabel "  Full gain range: " l
          ∧ ¬ hasLabel "  Full freq range: " l := by
  refine ⟨?_, ?_⟩
  · have h1 : ∀ x : String, "  Full gain range: " ++ ("[" ++ x) = "  Full gain range: [" ++ x := by
      intro x; rw [← String.append_assoc]; rfl
    have h2 : ∀ x : String, " gain range: " ++ ("[" ++ x) = " gain range: [" ++ x := by
      intro x; rw [← String.append_assoc]; rfl
    have h3 : "]" ++ " dB" = "] dB" := by decide
    rw [probeChannel_eq, channelLines_split]
    simp only [channelRanges, toStringRange, toStringRangeList_eq, String.append_assoc,
      List.append_assoc, h1, h2, h3]
  · simp [channelOpening, channelCorrections, channelClosing, hasLabel, divider, labelled,
      or_imp, forall_and]

/-- The corrections text is empty exactly when no correction is reported. -/
theorem correctionNames_facts (a b c : Bool) :
    (correctionNames a b c).Sublist ["DC removal", "DC offset", "IQ balance"]
    ∧ ("DC removal" ∈ correctionNames a b c ↔ a = true)
    ∧ ("DC offset" ∈ correctionNames a b c ↔ b = true)
    ∧ ("IQ balance" ∈ correctionNames a b c ↔ c = true)
    ∧ (correctionNames a b c ≠ [] ↔ (a = true ∨ b = true ∨ c = true))
    ∧ labelled "  Corrections: " (", ".intercalate (correctionNames a b c))
        = if correctionNames a b c = [] then []
          else ["  Corrections: " ++ ", ".intercalate (correctionNames a b c)] := by
  cases a <;> cases b <;> cases c <;> decide

/-- C9: the channel section is, in this order and with nothing else, its
opening lines (title block, full-duplex, antennas), the line `  Corrections: `
followed by the reported corrections joined by `, ` when there is at least
one and no line otherwise, then its gain, frequency and closing lines. The
reported corrections are `DC removal` exactly when `hasDCOffsetMode` holds,
`DC offset` exactly when `hasDCOffset` holds and `IQ balance` exactly when
`hasIQBalance` holds, in that relative order; and none of the opening, gain,
frequency and closing lines starts with `  Corrections: `. -/
theorem corrections_line {R : Type} (D : DoubleOps R) (dev : Device Id R) (dir : Int)
    (chan : Nat) :
    Id.run (probeChannel D dev dir chan)
      = unlines (channelOpening dev dir chan
        ++ (if correctionNames (Id.run (dev.hasDCOffsetMode dir chan))
              (Id.run (dev.hasDCOffset dir chan)) (Id.run (dev.hasIQBalance dir chan)) = []
            then []
            else ["  Corrections: "
              ++ ", ".intercalate (correctionNames (Id.run (dev.hasDCOffsetMode dir chan))
                (Id.run (dev.hasDCOffset dir chan)) (Id.run (dev.hasIQBalance dir chan)))])
        ++ (channelRanges D dev dir chan ++ channelClosing D dev dir chan))
    ∧ (correctionNames (Id.run (dev.hasDCOffsetMode dir chan))
          (Id.run (dev.hasDCOffset dir chan)) (Id.run (dev.hasIQBalance dir chan))).Sublist
        ["DC removal", "DC offset", "IQ balance"]
    ∧ ("DC removal" ∈ correctionNames (Id.run (dev.hasDCOffsetMode dir chan))
          (Id.run (dev.hasDCOffset dir chan)) (Id.run (dev.hasIQBalance dir chan))
        ↔ Id.run (dev.hasDCOffsetMode dir chan) = true)
    ∧ ("DC offset" ∈ correctionNames (Id.run (dev.hasDCOffsetMode dir chan))
          (Id.run (dev.hasDCOffset dir chan)) (Id.run (dev.hasIQBalance dir chan))
        ↔ Id.run (dev.hasDCOffset dir chan) = true)
    ∧ ("IQ balance" ∈ correctionNames (Id.run (dev.hasDCOffsetMode dir chan))
          (Id.run (dev.hasDCOffset dir chan)) (Id.run (dev.hasIQBalance dir chan))
        ↔ Id.run (dev.hasIQBalance dir chan) = true)
    ∧ (correctionNames (Id.run (dev.hasDCOffsetMode dir chan))
          (Id.run (dev.hasDCOffset dir chan)) (Id.run (dev.hasIQBalance dir chan)) ≠ []
        ↔ (Id.run (dev.hasDCOffsetMode dir chan) = true
          ∨ Id.run (dev.hasDCOffset dir chan) = true ∨ Id.run (dev.hasIQBalance dir chan) = true))
    ∧ ∀ l ∈ channelOpening dev dir chan
          ++ (channelRanges D dev dir chan ++ channelClosing D dev dir chan),
        ¬ hasLabel "  Corrections: " l := by
  have hf := correctionNames_facts (Id.run (dev.hasDCOffsetMode dir chan))
    (Id.run (dev.hasDCOffset dir chan)) (Id.run (dev.hasIQBalance dir chan))
  refine ⟨?_, hf.1, hf.2.1, hf.2.2.1, hf.2.2.2.1, hf.2.2.2.2.1, ?_⟩
  · rw [probeChannel_eq, channelLines_split]
    unfold channelCorrections
    rw [hf.2.2.2.2.2]
    simp only [List.append_assoc]
  · simp [channelOpening, channelRanges, channelClosing, hasLabel, divider, labelled, or_imp,
      forall_and]

/-- C8 and C9 evaluated on the sample device: the RX section and its gain,
frequency and corrections lines. -/
theorem sampleDevice_channel_report :
    Id.run (probeChannel wholeOps sampleDevice SOAPY_SDR_RX 0)
      = unlines ["", divider, "-- RX Channel 0", divider, "  Full-duplex: YES",
          "  Antennas: A, B", "  Corrections: DC removal, IQ balance",
          "  Full gain range: [0, 60] dB", "    LNA gain range: [0, 40] dB",
          "    VGA gain range: [0, 20] dB", "  Full freq range: [100, 200], [400, 800] MHz",
          "    RF freq range: [100, 800] MHz", "  Sample rates: [1, 8] MHz",
          "  Filter bandwidths: [5] MHz", "  Sensors: temp"] := by
  decide

theorem toStringList_snoc (options : List String) (x : String) :
    toStringList (options ++ [x])
      = (if toStringList options ≠ "" then toStringList options ++ ", "
          else toStringList options) ++ x := by
  cases options with
  | nil => simp [toStringList]
  | cons y ys => simp [toStringList, List.foldl_append]

theorem peripheralLines_namesLine {R : Type} (dev : Device Id R) :
    peripheralLines dev
      = ["", divider, "-- Peripheral summary", divider,
          "  Channels: " ++ toString (Id.run (dev.getNumChannels SOAPY_SDR_RX)) ++ " Rx, "
            ++ toString (Id.run (dev.getNumChannels SOAPY_SDR_TX)) ++ " Tx",
          "  Timestamps: " ++ yesNo (Id.run dev.hasHardwareTime)]
        ++ namesLine "  Clock sources: " (Id.run dev.listClockSources)
        ++ namesLine "  Time sources: " (Id.run dev.listTimeSources)
        ++ namesLine "  Sensors: " (Id.run dev.listSensors)
        ++ namesLine "  GPIOs: " (Id.run dev.listGPIOBanks)
        ++ namesLine "  UARTs: " (Id.run dev.listUARTs) := by
  simp only [peripheralLines, labelled_toStringList]

/-- C10: `toString(list)` is the empty string exactly when every element of
the list is the empty string, as for the two-element list `["", ""]`, a further
element being written after a separator only when the text so far is not
empty. So the channel section is, in this order and with nothing else, its
title block and full-duplex line, the `Antennas:` line left out exactly when
every antenna name is empty, its corrections, gain, frequency, sample rate and
bandwidth lines, none of which starts with `  Antennas: ` or `  Sensors: `,
and the `Sensors:` line left out exactly when every sensor name is empty; and
the `Clock sources:`, `Time sources:`, `Sensors:`, `GPIOs:` and `UARTs:` lines
of the peripheral summary are left out exactly when every reported name is
empty. -/
theorem empty_names_suppress {R : Type} (D : DoubleOps R) (dev : Device Id R) (dir : Int)
    (chan : Nat) (options : List String) :
    (toStringList options = "" ↔ ∀ s ∈ options, s = "")
    ∧ (∀ x : String, toStringList (options ++ [x])
        = (if toStringList options ≠ "" then toStringList options ++ ", "
            else toStringList options) ++ x)
    ∧ toStringList ["", ""] = ""
    ∧ Id.run (probeChannel D dev dir chan)
        = unlines (channelHeader dev dir chan
          ++ (if ∀ s ∈ Id.run (dev.listAntennas dir chan), s = "" then []
              else ["  Antennas: " ++ toStringList (Id.run (dev.listAntennas dir chan))])
          ++ (channelCorrections dev dir chan ++ channelRanges D dev dir chan
            ++ channelRates D dev dir chan)
          ++ (if ∀ s ∈ Id.run (dev.listSensorsChan dir chan), s = "" then []
              else ["  Sensors: " ++ toStringList (Id.run (dev.listSensorsChan dir chan))]))
    ∧ (∀ l ∈ channelHeader dev dir chan
          ++ (channelCorrections dev dir chan ++ channelRanges D dev dir chan
            ++ channelRates D dev dir chan),
        ¬ hasLabel "  Antennas: " l ∧ ¬ hasLabel "  Sensors: " l)
    ∧ Id.run (SoapySDRDeviceProbe D dev)
        = unlines (identificationLines dev)
          ++ unlines (["", divider, "-- Peripheral summary", divider,
              "  Channels: " ++ toString (Id.run (dev.getNumChannels SOAPY_SDR_RX)) ++ " Rx, "
                ++ toString (Id.run (dev.getNumChannels SOAPY_SDR_TX)) ++ " Tx",
              "  Timestamps: " ++ yesNo (Id.run dev.hasHardwareTime)]
            ++ namesLine "  Clock sources: " (Id.run dev.listClockSources)
            ++ namesLine "  Time sources: " (Id.run dev.listTimeSources)
            ++ namesLine "  Sensors: " (Id.run dev.listSensors)
            ++ namesLine "  GPIOs: " (Id.run dev.listGPIOBanks)
            ++ namesLine "  UARTs: " (Id.run dev.listUARTs))
          ++ String.join ((List.range (Id.run (dev.getNumChannels SOAPY_SDR_RX))).map
              (fun i => Id.run (probeChannel D dev SOAPY_SDR_RX i)))
          ++ String.join ((List.range (Id.run (dev.getNumChannels SOAPY_SDR_TX))).map
              (fun j => Id.run (probeChannel D dev SOAPY_SDR_TX j))) := by
  refine ⟨toStringList_eq_empty_iff options, toStringList_snoc options, by decide, ?_, ?_, ?_⟩
  · rw [probeChannel_eq, channelLines_names]
    rfl
  · simp [channelHeader, channelCorrections, channelRanges, channelRates, hasLabel, divider,
      labelled, or_imp, forall_and]
  · rw [SoapySDRDeviceProbe_eq, peripheralLines_namesLine]

/-- C10 on the sample device, whose device-wide sensor list is two empty
names: the text of the list is empty and the peripheral summary has no
`Sensors:` line. -/
theorem empty_names_suppress_witness :
    Id.run sampleDevice.listSensors = ["", ""]
    ∧ toStringList (Id.run sampleDevice.listSensors) = ""
    ∧ namesLine "  Sensors: " (Id.run sampleDevice.listSensors) = []
    ∧ peripheralLines sampleDevice
        = ["", divider, "-- Peripheral summary", divider, "  Channels: 1 Rx, 1 Tx",
            "  Timestamps: YES", "  Clock sources: internal, external", "  Time sources: pps",
            "  GPIOs: MAIN"] :=
  ⟨rfl,
    (empty_names_suppress wholeOps sampleDevice SOAPY_SDR_RX 0
      (Id.run sampleDevice.listSensors)).1.2 (by decide),
    by decide, by decide⟩

theorem sound_pure {ε R α : Type} (dev : Device (Except ε) R) (a : α) :
    Sound dev (pure a : Traced ε α) (pure a) := by
  intro log
  exact ⟨rfl, [], by simp [pure], by simp⟩

theorem sound_call {ε R α : Type} (dev : Device (Except ε) R) (q : Query) (x : Except ε α)
    (h : outcome dev q = thrown x) : Sound dev (call q x) x := by
  intro log
  refine ⟨rfl, ?_⟩
  cases x with
  | ok a => exact ⟨[q], rfl, by simpa [thrown] using h⟩
  | error e => exact ⟨[], q, rfl, by simp, by simpa [thrown] using h⟩

theorem sound_bind {ε R α β : Type} (dev : Device (Except ε) R) (x : Traced ε α)
    (y : Except ε α) (f : α → Traced ε β) (g : α → Except ε β)
    (hx : Sound dev x y) (hf : ∀ a, Sound dev (f a) (g a)) :
    Sound dev (x >>= f) (y >>= g) := by
  intro log
  obtain ⟨h1, h2⟩ := hx log
  cases y with
  | error e =>
    obtain ⟨more, q, hlog, hmore, hq⟩ := h2
    have hx' : x log = (Except.error e, log ++ (more ++ [q])) := Prod.ext h1 hlog
    have hb : (x >>= f) log = (Except.error e, log ++ (more ++ [q])) := by
      show (match x log with
        | (Except.ok a, log1) => f a log1
        | (Except.error e, log1) => (Except.error e, log1)) = _
      rw [hx']
    rw [hb]
    exact ⟨rfl, more, q, rfl, hmore, hq⟩
  | ok a =>
    obtain ⟨more, hlog, hmore⟩ := h2
    have hx' : x log = (Except.ok a, log ++ more) := Prod.ext h1 hlog
    have hb : (x >>= f) log = f a (log ++ more) := by
      show (match x log with
        | (Except.ok a, log1) => f a log1
        | (Except.error e, log1) => (Except.error e, log1)) = _
      rw [hx']
    rw [hb]
    obtain ⟨h3, h4⟩ := hf a (log ++ more)
    refine ⟨h3, ?_⟩
    show match g a with
      | Except.ok _ => _
      | Except.error e => _
    cases hg : g a with
    | ok b =>
      rw [hg] at h4
      obtain ⟨more2, hlog2, hmore2⟩ := h4
      refine ⟨more ++ more2, by rw [hlog2, List.append_assoc], ?_⟩
      intro q hq
      rcases List.mem_append.1 hq with h | h
      · exact hmore q h
      · exact hmore2 q h
    | error e =>
      rw [hg] at h4
      obtain ⟨more2, q, hlog2, hmore2, hq⟩ := h4
      refine ⟨more ++ more2, q, by rw [hlog2]; simp [List.append_assoc], ?_, hq⟩
      intro q' hq'
      rcases List.mem_append.1 hq' with h | h
      · exact hmore q' h
      · exact hmore2 q' h

theorem sound_foldlM {ε R α σ : Type} (dev : Device (Except ε) R) (f : σ → α → Traced ε σ)
    (g : σ → α → Except ε σ) (hf : ∀ s a, Sound dev (f s a) (g s a)) (l : List α) (init : σ) :
    Sound dev (l.foldlM f init) (l.foldlM g init) := by
  induction l generalizing init with
  | nil => exact sound_pure dev init
  | cons a l ih =>
    rw [List.foldlM_cons, List.foldlM_cons]
    exact sound_bind dev _ _ _ _ (hf init a) (fun s => ih s)

theorem sound_probeChannel {ε R : Type} (D : DoubleOps R) (dev : Device (Except ε) R)
    (dir : Int) (chan : Nat) :
    Sound dev (probeChannel D (traced dev) dir chan) (probeChannel D dev dir chan) := by
  unfold probeChannel
  repeat first
    | exact sound_pure dev _
    | exact sound_call dev _ _ rfl
    | (apply sound_foldlM; intro s a)
    | apply sound_bind
    | intro _

theorem sound_SoapySDRDeviceProbe {ε R : Type} (D : DoubleOps R) (dev : Device (Except ε) R) :
    Sound dev (SoapySDRDeviceProbe D (traced dev)) (SoapySDRDeviceProbe D dev) := by
  unfold SoapySDRDeviceProbe
  repeat first
    | exact sound_pure dev _
    | exact sound_call dev _ _ rfl
    | exact sound_probeChannel D dev _ _
    | (apply sound_foldlM; intro s a)
    | apply sound_bind
    | intro _

theorem returns_pure {ε α : Type} (a : α) : Returns (pure a : Except ε α) (pure a) := rfl

theorem returns_ok {ε α : Type} (y : Id α) : Returns (Except.ok (Id.run y) : Except ε α) y := rfl

theorem returns_bind {ε α β : Type} (x : Except ε α) (y : Id α) (f : α → Except ε β)
    (g : α → Id β) (hx : Returns x y) (hf : ∀ a, Returns (f a) (g a)) :
    Returns (x >>= f) (y >>= g) := by
  unfold Returns at hx
  subst hx
  exact hf _

theorem returns_foldlM {ε α σ : Type} (f : σ → α → Except ε σ) (g : σ → α → Id σ)
    (hf : ∀ s a, Returns (f s a) (g s a)) (l : List α) (init : σ) :
    Returns (l.foldlM f init) (l.foldlM g init) := by
  induction l generalizing init with
  | nil => exact returns_pure init
  | cons a l ih =>
    rw [List.foldlM_cons, List.foldlM_cons]
    exact returns_bind _ _ _ _ (hf init a) (fun s => ih s)

theorem returns_probeChannel {ε R : Type} (D : DoubleOps R) (dev : Device Id R)
    (dir : Int) (chan : Nat) :
    Returns (probeChannel D (okDevice dev : Device (Except ε) R) dir chan)
      (probeChannel D dev dir chan) := by
  unfold probeChannel
  repeat first
    | exact returns_pure _
    | exact returns_ok _
    | (apply returns_foldlM; intro s a)
    | apply returns_bind
    | intro _

theorem returns_SoapySDRDeviceProbe {ε R : Type} (D : DoubleOps R) (dev : Device Id R) :
    Returns (SoapySDRDeviceProbe D (okDevice dev : Device (Except ε) R))
      (SoapySDRDeviceProbe D dev) := by
  unfold SoapySDRDeviceProbe
  repeat first
    | exact returns_pure _
    | exact returns_ok _
    | exact returns_probeChannel D dev _ _
    | (apply returns_foldlM; intro s a)
    | apply returns_bind
    | intro _

/-- C6: with queries that return or throw, the probe returns a report when
every query it calls returns (for a device whose queries all return, the
report of that device); and when a query it calls throws `e`, that call is the
last one made, every call before it returned, and the probe throws `e` itself,
with no report. The log of calls is that of the same program run on the
device with every call logged, which returns or throws as the plain run. -/
theorem failure_propagates {ε R : Type} (D : DoubleOps R) (dev : Device (Except ε) R) :
    (SoapySDRDeviceProbe D (traced dev) []).1 = SoapySDRDeviceProbe D dev
    ∧ ((∀ q ∈ (SoapySDRDeviceProbe D (traced dev) []).2, outcome dev q = none) →
        ∃ report, SoapySDRDeviceProbe D dev = Except.ok report)
    ∧ (∀ q ∈ (SoapySDRDeviceProbe D (traced dev) []).2, ∀ e, outcome dev q = some e →
        SoapySDRDeviceProbe D dev = Except.error e
        ∧ ∃ before, (SoapySDRDeviceProbe D (traced dev) []).2 = before ++ [q]
            ∧ ∀ q' ∈ before, outcome dev q' = none)
    ∧ (∀ e, SoapySDRDeviceProbe D dev = Except.error e →
        ∃ q ∈ (SoapySDRDeviceProbe D (traced dev) []).2, outcome dev q = some e)
    ∧ (∀ pureDev : Device Id R,
        SoapySDRDeviceProbe D (okDevice pureDev : Device (Except ε) R)
          = Except.ok (Id.run (SoapySDRDeviceProbe D pureDev))) := by
  obtain ⟨h1, h2⟩ := sound_SoapySDRDeviceProbe D dev []
  refine ⟨h1, ?_, ?_, ?_, fun pureDev => returns_SoapySDRDeviceProbe D pureDev⟩
  · intro hall
    cases hy : SoapySDRDeviceProbe D dev with
    | ok report => exact ⟨report, rfl⟩
    | error e =>
      rw [hy] at h2
      obtain ⟨more, q, hlog, -, hq⟩ := h2
      have := hall q (by rw [hlog]; simp)
      rw [hq] at this
      exact absurd this (by simp)
  · intro q hq e he
    cases hy : SoapySDRDeviceProbe D dev with
    | ok report =>
      rw [hy] at h2
      obtain ⟨more, hlog, hmore⟩ := h2
      have := hmore q (by rw [hlog] at hq; simpa using hq)
      rw [he] at this
      exact absurd this (by simp)
    | error e' =>
      rw [hy] at h2
      obtain ⟨more, last, hlog, hmore, hlast⟩ := h2
      rw [hlog] at hq
      simp only [List.nil_append, List.mem_append, List.mem_singleton] at hq
      rcases hq with hq | hq
      · have := hmore q hq
        rw [he] at this
        exact absurd this (by simp)
      · subst hq
        rw [he] at hlast
        cases hlast
        exact ⟨rfl, more, by rw [hlog]; simp, hmore⟩
  · intro e hy
    rw [hy] at h2
    obtain ⟨more, q, hlog, -, hq⟩ := h2
    exact ⟨q, by rw [hlog]; simp, hq⟩

/-- C6 on a device that throws: the probe asks for the antennas of RX channel
0 after twelve calls that return, and throws the error of that call; the
later failing query for the sensors of the channel is never called. On the
sample device, where nothing throws, it returns the report. -/
theorem failure_propagates_witness :
    (SoapySDRDeviceProbe wholeOps (traced failingDevice) []).2
      = [.getDriverKey, .getHardwareKey, .getHardwareInfo, .getNumChannels SOAPY_SDR_RX,
          .getNumChannels SOAPY_SDR_TX, .hasHardwareTime, .listClockSources, .listTimeSources,
          .listSensors, .listGPIOBanks, .listUARTs, .getFullDuplex SOAPY_SDR_RX 0,
          .listAntennas SOAPY_SDR_RX 0]
    ∧ outcome failingDevice (.listAntennas SOAPY_SDR_RX 0) = some "unsupported"
    ∧ outcome failingDevice (.listSensorsChan SOAPY_SDR_RX 0) = some "unavailable"
    ∧ SoapySDRDeviceProbe wholeOps failingDevice = Except.error "unsupported"
    ∧ SoapySDRDeviceProbe wholeOps (okDevice sampleDevice : Device (Except String) Int)
        = Except.ok (Id.run (SoapySDRDeviceProbe wholeOps sampleDevice)) :=
  ⟨by decide, rfl, rfl,
    ((failure_propagates wholeOps failingDevice).2.2.1 (.listAntennas SOAPY_SDR_RX 0)
      (by decide) "unsupported" rfl).1,
    (failure_propagates wholeOps failingDevice).2.2.2.2 sampleDevice⟩

end SoapySDRProbe
